import Mathlib

/-!
Shallow embedding of the `aem` RISC-V assembler (lexer operand
classification, instruction-set table, instruction encoders, pseudo
expansion and object assembly), translated from the Rust sources, with
theorems settling the specification claims.

Rust partial operations are made explicit: `PRes` has a `panic` outcome
for out-of-bounds `Vec` indexing and `Option::unwrap`, and fallible
functions return `Except`.
-/

deriving instance DecidableEq for Except

namespace Aem

/-- Result of running a piece of Rust code that may return an error value
or panic (out-of-bounds indexing, `unwrap` on `None`). -/
inductive PRes (ε : Type) (α : Type) where
  | ok (a : α)
  | err (e : ε)
  | panic
deriving DecidableEq, Repr

def PRes.bind {ε α β : Type} : PRes ε α → (α → PRes ε β) → PRes ε β
  | .ok a, f => f a
  | .err e, _ => .err e
  | .panic, _ => .panic

/-- `Option.unwrap`: panics on `none`. -/
def unwrapO {ε α : Type} : Option α → PRes ε α
  | some a => .ok a
  | none => .panic

def PRes.isOk {ε α : Type} : PRes ε α → Bool
  | .ok _ => true
  | _ => false

/-! ### Character classes and numeric parsing (`util::ParseFrom`, `str::parse`) -/

def isDig (c : Char) : Bool := '0' ≤ c && c ≤ '9'

def isHexDig (c : Char) : Bool :=
  isDig c || ('a' ≤ c && c ≤ 'f') || ('A' ≤ c && c ≤ 'F')

def isIdentChar (c : Char) : Bool :=
  ('a' ≤ c && c ≤ 'z') || ('A' ≤ c && c ≤ 'Z') || isDig c || c = '_'

def isIdentStart (c : Char) : Bool :=
  ('a' ≤ c && c ≤ 'z') || ('A' ≤ c && c ≤ 'Z') || c = '_'

/-- regex `\s` -/
def isWs (c : Char) : Bool :=
  c = ' ' || c = '\t' || c = '\n' || c = '\x0d' || c = '\x0b' || c = '\x0c'

def digVal (c : Char) : Nat := c.toNat - '0'.toNat

def hexDigVal (c : Char) : Nat :=
  if isDig c then digVal c
  else if 'a' ≤ c && c ≤ 'f' then c.toNat - 'a'.toNat + 10
  else c.toNat - 'A'.toNat + 10

/-- Value of a non-empty all-digit string, `none` otherwise. -/
def decValue? (cs : List Char) : Option Nat :=
  if cs ≠ [] && cs.all isDig then
    some (cs.foldl (fun acc c => acc * 10 + digVal c) 0)
  else none

def hexValue? (cs : List Char) : Option Nat :=
  if cs ≠ [] && cs.all isHexDig then
    some (cs.foldl (fun acc c => acc * 16 + hexDigVal c) 0)
  else none

def binValue? (cs : List Char) : Option Nat :=
  if cs ≠ [] && cs.all (fun c => c = '0' || c = '1') then
    some (cs.foldl (fun acc c => acc * 2 + digVal c) 0)
  else none

/-- `u32::from_str`: optional leading `+`, decimal digits, range check. -/
def u32FromStr (cs : List Char) : Option Nat :=
  let body := match cs with
              | '+' :: rest => rest
              | _ => cs
  match decValue? body with
  | some v => if v < 2 ^ 32 then some v else none
  | none => none

/-- Signed integer from digits with an optional sign, range-checked against
`i32`; shared shape of `i32::from_str` and `i32::from_str_radix`. -/
def i32OfSigned (valOf : List Char → Option Nat) (cs : List Char) : Option Int :=
  match cs with
  | '-' :: rest =>
      match valOf rest with
      | some v => if (v : Int) ≤ 2 ^ 31 then some (-(v : Int)) else none
      | none => none
  | '+' :: rest =>
      match valOf rest with
      | some v => if v < 2 ^ 31 then some (v : Int) else none
      | none => none
  | _ =>
      match valOf cs with
      | some v => if v < 2 ^ 31 then some (v : Int) else none
      | none => none

/-- `<i32 as util::ParseFrom>::parse`: radix 16 after `0x`, radix 2 after
`0b`, else `i32::from_str`. -/
def i32Parse (cs : List Char) : Option Int :=
  match cs with
  | '0' :: 'x' :: rest => i32OfSigned hexValue? rest
  | '0' :: 'b' :: rest => i32OfSigned binValue? rest
  | _ => i32OfSigned decValue? cs

/-! ### The lexer's regular expressions, as decidable matchers

Each matcher is a literal transcription of the corresponding regex in
`lexer.rs`.  Anchored regexes (`^...$`) are whole-string matchers; the
relative-address and relocation regexes are used via `is_match`, i.e. a
substring search, embedded as a scan over every start position. -/

/-- One alternative of `REGISTER_REGEX`:
`x\d+|zero|ra|sp|gp|tp|t[0-6]|s[0-1][0-1]?|a[0-7]|f\d+|ft[0-7]|fs[0-1][0-1]?|fa[0-7]`. -/
def regAlt (cs : List Char) : Bool :=
  (match cs with
   | 'x' :: ds => ds ≠ [] && ds.all isDig
   | _ => false) ||
  cs = "zero".data || cs = "ra".data || cs = "sp".data ||
  cs = "gp".data || cs = "tp".data ||
  (match cs with
   | ['t', c] => '0' ≤ c && c ≤ '6'
   | _ => false) ||
  (match cs with
   | ['s', c] => c = '0' || c = '1'
   | ['s', c, d] => (c = '0' || c = '1') && (d = '0' || d = '1')
   | _ => false) ||
  (match cs with
   | ['a', c] => '0' ≤ c && c ≤ '7'
   | _ => false) ||
  (match cs with
   | 'f' :: 't' :: ds =>
       (match ds with
        | [c] => '0' ≤ c && c ≤ '7'
        | _ => false)
   | 'f' :: 's' :: ds =>
       (match ds with
        | [c] => c = '0' || c = '1'
        | [c, d] => (c = '0' || c = '1') && (d = '0' || d = '1')
        | _ => false)
   | 'f' :: 'a' :: ds =>
       (match ds with
        | [c] => '0' ≤ c && c ≤ '7'
        | _ => false)
   | _ => false) ||
  (match cs with
   | 'f' :: ds => ds ≠ [] && ds.all isDig
   | _ => false)

/-- `REGISTER_REGEX`: `^\s*( ... )\s*$`. -/
def regRegexMatch (cs : List Char) : Bool :=
  regAlt ((cs.dropWhile isWs).reverse.dropWhile isWs).reverse

/-- `SIGNED_REGEX`: `^(-\d+|\d+|0x[0-9a-fA-F]+)$`. -/
def signedRegexMatch (cs : List Char) : Bool :=
  (match cs with
   | '-' :: ds => ds ≠ [] && ds.all isDig
   | _ => false) ||
  (cs ≠ [] && cs.all isDig) ||
  (match cs with
   | '0' :: 'x' :: ds => ds ≠ [] && ds.all isHexDig
   | _ => false)

/-- `IDENTIFIER_REGEX`: `^[a-zA-Z0-9_]*$`. -/
def identRegexMatch (cs : List Char) : Bool := cs.all isIdentChar

/-- Match of `RELATIVE_ADDRESS_REGEX` = `(-?\d+)\(([a-zA-Z_][a-zA-Z0-9_]*)\)`
starting at the head of the list. -/
def relAddrAt (cs : List Char) : Bool :=
  let body := match cs with
              | '-' :: rest => rest
              | _ => cs
  let ds := body.takeWhile isDig
  let rest := body.dropWhile isDig
  ds ≠ [] &&
  (match rest with
   | '(' :: c :: rest2 =>
       isIdentStart c &&
       (match rest2.dropWhile isIdentChar with
        | ')' :: _ => true
        | _ => false)
   | _ => false)

/-- `RELATIVE_ADDRESS_REGEX.is_match`: search at every start position. -/
def relAddrSearch : List Char → Bool
  | [] => false
  | c :: rest => relAddrAt (c :: rest) || relAddrSearch rest

def stripPrefixL (pre cs : List Char) : Option (List Char) :=
  match pre, cs with
  | [], rest => some rest
  | p :: ps, c :: rest => if c = p then stripPrefixL ps rest else none
  | _ :: _, [] => none

/-- After `%` and an optional `(?:pc|tp)?rel_` prefix: `(hi|lo|add)\([^)]+\)`. -/
def relocFn (cs : List Char) : Bool :=
  let tryFn : List Char → Bool := fun l =>
    match l with
    | '(' :: rest =>
        let body := rest.takeWhile (fun c => c ≠ ')')
        body ≠ [] &&
        (match rest.dropWhile (fun c => c ≠ ')') with
         | ')' :: _ => true
         | _ => false)
    | _ => false
  (match stripPrefixL "hi".data cs with
   | some l => tryFn l
   | none => false) ||
  (match stripPrefixL "lo".data cs with
   | some l => tryFn l
   | none => false) ||
  (match stripPrefixL "add".data cs with
   | some l => tryFn l
   | none => false)

/-- Match of `RELOCATION_REGEX` = `%((?:pc|tp)?rel_)?(hi|lo|add)\([^)]+\)`
starting at the head of the list. -/
def relocAt (cs : List Char) : Bool :=
  match cs with
  | '%' :: rest =>
      relocFn rest ||
      (match stripPrefixL "rel_".data rest with
       | some l => relocFn l
       | none => false) ||
      (match stripPrefixL "pcrel_".data rest with
       | some l => relocFn l
       | none => false) ||
      (match stripPrefixL "tprel_".data rest with
       | some l => relocFn l
       | none => false)
  | _ => false

/-- `RELOCATION_REGEX.is_match`: search at every start position. -/
def relocSearch : List Char → Bool
  | [] => false
  | c :: rest => relocAt (c :: rest) || relocSearch rest

/-! ### Data model (`lexer.rs`)

The Rust `RValue<T>` is generic in the immediate type; every place the
claims touch instantiates it at `i32` (`Operand` holds `RValue<i32>`), so
immediates are embedded as `Int` with the `i32` range enforced by the
parsers above. -/

inductive RValue where
  | Register (bank : Char) (index : Nat)
  | Identifier (name : String)
  | Immediate (value : Int)
deriving DecidableEq, Repr

inductive Operand where
  | RValue (rv : Aem.RValue)
  | RelocationFn (fn : String) (symbol : Aem.RValue)
  | Address (base : Aem.RValue) (offset : Aem.RValue)
deriving DecidableEq, Repr

/-- `TryFrom<Operand> for RValue<i32>`. -/
def tryIntoRValue : Operand → Option RValue
  | .RValue rv => some rv
  | _ => none

inductive Emittable where
  | Byte (vals : List RValue)
  | Half (vals : List RValue)
  | Word (vals : List RValue)
  | Dword (vals : List RValue)
  | Str (text : String)
  | Instruction (mnemonic : String) (operands : List Operand)
deriving DecidableEq, Repr

inductive Visibility where
  | Local (name : String)
  | Global (name : String)
deriving DecidableEq, Repr

inductive Align where
  | AsPow (n pad maxpad : Nat)
  | AsBytes (n pad : Nat)
deriving DecidableEq, Repr

/-- `lexer::Directive` (the macro-declaration constructor is named
`MacroDecl` here). -/
inductive Directive where
  | Alignment (a : Align)
  | Section (name : String) (flags : Nat) (w : Nat)
  | Equ (name : String) (val : RValue)
  | Scope (v : Visibility)
  | MacroDecl (name : String) (args : List String)
  | Marker (name : String)
deriving DecidableEq, Repr

inductive Token where
  | Emittable (e : Aem.Emittable)
  | Directive (d : Aem.Directive)
  | Label (name : String)
deriving DecidableEq, Repr

inductive LexerErr where
  | Syntax (msg : String)
  | Parsing (msg : String)
deriving DecidableEq, Repr

/-! ### Register table and register parsing -/

/-- `arch::CONVENTIONAL_TO_ABI`. -/
def CONVENTIONAL_TO_ABI : List (String × String) :=
  [("zero", "x0"), ("ra", "x1"), ("sp", "x2"), ("gp", "x3"), ("tp", "x4"),
   ("t0", "x5"), ("t1", "x6"), ("t2", "x7"), ("s0", "x8"), ("s1", "x9"),
   ("a0", "x10"), ("a1", "x11"), ("a2", "x12"), ("a3", "x13"), ("a4", "x14"),
   ("a5", "x15"), ("a6", "x16"), ("a7", "x17"), ("s2", "x18"), ("s3", "x19"),
   ("s4", "x20"), ("s5", "x21"), ("s6", "x22"), ("s7", "x23"), ("s8", "x24"),
   ("s9", "x25"), ("s10", "x26"), ("s11", "x27"), ("t3", "x28"), ("t4", "x29"),
   ("t5", "x30"), ("t6", "x31"), ("fp", "x8"),
   ("ft0", "f0"), ("ft1", "f1"), ("ft2", "f2"), ("ft3", "f3"), ("ft4", "f4"),
   ("ft5", "f5"), ("ft6", "f6"), ("ft7", "f7"), ("fs0", "f8"), ("fs1", "f9"),
   ("fa0", "f10"), ("fa1", "f11"), ("fa2", "f12"), ("fa3", "f13"),
   ("fa4", "f14"), ("fa5", "f15"), ("fa6", "f16"), ("fa7", "f17"),
   ("fs2", "f18"), ("fs3", "f19"), ("fs4", "f20"), ("fs5", "f21"),
   ("fs6", "f22"), ("fs7", "f23"), ("fs8", "f24"), ("fs9", "f25"),
   ("fs10", "f26"), ("fs11", "f27"), ("ft8", "f28"), ("ft9", "f29"),
   ("ft10", "f30"), ("ft11", "f31")]

/-- The ABI-name arm of `Lexer::get_register`: match on the first character
(`x` or `f`) and parse the remainder with `u32::parse`. -/
def get_register_core (s : String) : Except LexerErr RValue :=
  match s.data with
  | c :: rest =>
      if c = 'x' ∨ c = 'f' then
        match u32FromStr rest with
        | some v => .ok (.Register c v)
        | none =>
            .error (.Parsing ("Unable to parse ABI register index: \"" ++ s ++ "\""))
      else
        .error (.Parsing ("Unexpected ABI register prefix: \"" ++ s ++ "\""))
  | [] => .error (.Parsing ("Unexpected ABI register prefix: \"" ++ s ++ "\""))

/-- `Lexer::get_register`.  The source recurses once after rewriting a
conventional name through `CONVENTIONAL_TO_ABI`; since every value of that
table (`x0`…`x31`, `f0`…`f31`) is itself absent from the table's keys, the
recursive call always lands in the ABI arm, embedded as
`get_register_core`. -/
def get_register (s : String) : Except LexerErr RValue :=
  match CONVENTIONAL_TO_ABI.lookup s with
  | some abi => get_register_core abi
  | none => get_register_core s

/-! ### String helpers mirroring the `str` methods the lexer uses -/

/-- `str::split_once`. -/
def splitOnceL (c : Char) : List Char → Option (List Char × List Char)
  | [] => none
  | x :: xs =>
      if x = c then some ([], xs)
      else (splitOnceL c xs).map (fun p => (x :: p.1, p.2))

/-- `str::trim` (ASCII whitespace suffices for the embedded inputs). -/
def trimL (cs : List Char) : List Char :=
  ((cs.dropWhile isWs).reverse.dropWhile isWs).reverse

def trimS (s : String) : String := ⟨trimL s.data⟩

/-- `str::trim_start_matches` for a single character. -/
def trimStartMatches (c : Char) (cs : List Char) : List Char :=
  cs.dropWhile (fun x => x = c)

/-- `str::trim_end_matches` for a single character. -/
def trimEndMatches (c : Char) (cs : List Char) : List Char :=
  (cs.reverse.dropWhile (fun x => x = c)).reverse

/-! ### Operand classification (`Lexer::get_instruction` and helpers) -/

/-- `Lexer::get_relocation_function`: trim `%` and trailing `)`, split at
the first `(` into function name and symbol. -/
def get_relocation_function (cs : List Char) : Except LexerErr Operand :=
  let s := trimEndMatches ')' (trimStartMatches '%' cs)
  match splitOnceL '(' s with
  | some (fn, sym) =>
      if identRegexMatch sym then
        .ok (.RelocationFn ⟨fn⟩ (.Identifier ⟨sym⟩))
      else
        .error (.Syntax ("Relocation function expected an identifier: \"" ++ ⟨sym⟩ ++ "\""))
  | none =>
      .error (.Syntax ("Incomplete relocation function: \"" ++ ⟨cs⟩ ++ "\""))

/-- The closure `extract_or_err` of `Lexer::get_relative_address`. -/
def relExtract (offset : Int) (refStr : List Char) (operand : List Char) :
    Except LexerErr Operand :=
  if regRegexMatch refStr then
    match get_register ⟨refStr⟩ with
    | .ok r => .ok (.Address r (.Immediate offset))
    | .error e => .error e
  else if identRegexMatch refStr then
    .ok (.Address (.Identifier ⟨refStr⟩) (.Immediate offset))
  else
    .error (.Syntax ("Unexpected relative address operand: " ++ ⟨operand⟩))

/-- `Lexer::get_relative_address`: trim the trailing `)`, split on `(`,
parse the part before `(` as the offset (defaulting to 0 when it fails)
and classify the part after as register or identifier. -/
def get_relative_address (cs : List Char) : Except LexerErr Operand :=
  let parts := (trimEndMatches ')' cs).splitOn '('
  match parts with
  | [] => .error (.Syntax ("Invalid syntax provided for relative address: \"" ++ ⟨cs⟩ ++ "\""))
  | first :: rest =>
      match i32Parse first with
      | some off =>
          match rest with
          | second :: _ => relExtract off second cs
          | [] =>
              .error (.Syntax
                ("Relative address expected an identifier following offset value: \"" ++ ⟨cs⟩ ++ "\""))
      | none =>
          match rest with
          | second :: _ => relExtract 0 second cs
          | [] =>
              .error (.Syntax ("Relative address expected an identifier: \"" ++ ⟨cs⟩ ++ "\""))

/-- The operand-classification ladder inside `Lexer::get_instruction`. -/
def classifyOperand (s : List Char) : Except LexerErr Operand :=
  if regRegexMatch s then
    match get_register ⟨s⟩ with
    | .ok r => .ok (.RValue r)
    | .error e => .error e
  else if relAddrSearch s then
    get_relative_address s
  else if relocSearch s then
    get_relocation_function s
  else if signedRegexMatch s then
    match i32Parse s with
    | some v => .ok (.RValue (.Immediate v))
    | none => .error (.Parsing ("Unable to parse immediate value: \"" ++ ⟨s⟩ ++ "\""))
  else if identRegexMatch s then
    .ok (.RValue (.Identifier ⟨s⟩))
  else
    .error (.Syntax ("Unexpected instruction operand: " ++ ⟨s⟩))

def classifyOperands : List (List Char) → Except LexerErr (List Operand)
  | [] => .ok []
  | s :: rest =>
      match classifyOperand s with
      | .ok o =>
          match classifyOperands rest with
          | .ok os => .ok (o :: os)
          | .error e => .error e
      | .error e => .error e

/-- `Lexer::get_instruction`: split mnemonic from operands at the first
space, split operands on commas and trim each, then classify. -/
def get_instruction (line : String) : Except LexerErr Emittable :=
  match splitOnceL ' ' line.data with
  | some (mn, rest) =>
      match classifyOperands ((rest.splitOn ',').map trimL) with
      | .ok os => .ok (.Instruction ⟨mn⟩ os)
      | .error e => .error e
  | none => .ok (.Instruction (trimS line) [])


/-! ### ISA catalogue (`arch.rs`) -/

inductive Format where
  | RType | IType | SType | SBType | UType | UJType | R4Type
deriving DecidableEq, Repr

inductive FloatFormat where
  | Half | Single | Double | Quad
deriving DecidableEq, Repr

inductive Opcode where
  | Load | LoadFp | MiscMem | OpImm | AuiPC | OpImm32 | Store | StoreFp
  | Amo | Op | Op32 | Lui | MAdd | MSub | NmSub | NmAdd | OpFp | OpImm64
  | Branch | Jalr | Jal | System | Op64
deriving DecidableEq, Repr

/-- The discriminant of `arch::Opcode` (`opcode as u32`). -/
def Opcode.toNat : Opcode → Nat
  | .Load => 0b0000011
  | .LoadFp => 0b0000111
  | .MiscMem => 0b0001111
  | .OpImm => 0b0010011
  | .AuiPC => 0b0010111
  | .OpImm32 => 0b0011011
  | .Store => 0b0100011
  | .StoreFp => 0b0100111
  | .Amo => 0b0101111
  | .Op => 0b0110011
  | .Op32 => 0b0111011
  | .Lui => 0b0110111
  | .MAdd => 0b1000011
  | .MSub => 0b1000111
  | .NmSub => 0b1001011
  | .NmAdd => 0b1001111
  | .OpFp => 0b1010011
  | .OpImm64 => 0b1011011
  | .Branch => 0b1100011
  | .Jalr => 0b1100111
  | .Jal => 0b1101111
  | .System => 0b1110011
  | .Op64 => 0b1111011

inductive ShiftType where
  | SLL | SRL | SRA | SLLW | SRLW | SRAW | SLLD | SRLD | SRAD
deriving DecidableEq, Repr

/-- The discriminant of `arch::ShiftType` (`shift_type as u32`). -/
def ShiftType.toNat : ShiftType → Nat
  | .SLL => 0
  | .SRL => 1
  | .SRA => 2
  | .SLLW => 3
  | .SRLW => 4
  | .SRAW => 5
  | .SLLD => 6
  | .SRLD => 7
  | .SRAD => 8

inductive ISA where
  | RV32I | RV64I | RV128I | RV32E | RV64E | RV128E | ZiFencei | Zicsr
  | RV32M | RV64M | RV128M | RV32A | RV64A | RV128A
  | RV32F | RV64F | RV128F | RV32D | RV64D | RV128D | RV32Q | RV64Q | RV128Q
deriving DecidableEq, Repr

/-- `arch::Instruction`, the static encoding descriptor. -/
structure Instruction where
  opcode : Opcode
  format : Format
  isa : ISA
  funct3 : Option Nat
  funct5 : Option Nat
  funct7 : Option Nat
  funct12 : Option Nat
  float_format : Option FloatFormat
  shift : Option ShiftType
  rs2 : Option Nat
deriving DecidableEq, Repr

def Instruction.new (opcode : Opcode) (format : Format) (isa : ISA) : Instruction :=
  ⟨opcode, format, isa, none, none, none, none, none, none, none⟩

def Instruction.with_funct3 (i : Instruction) (f : Nat) : Instruction :=
  { i with funct3 := some f }

def Instruction.with_funct5 (i : Instruction) (f : Nat) : Instruction :=
  { i with funct5 := some f }

def Instruction.with_funct7 (i : Instruction) (f : Nat) : Instruction :=
  { i with funct7 := some f }

def Instruction.with_funct12 (i : Instruction) (f : Nat) : Instruction :=
  { i with funct12 := some f }

def Instruction.with_float_format (i : Instruction) (f : FloatFormat) : Instruction :=
  { i with float_format := some f }

def Instruction.with_shift (i : Instruction) (s : ShiftType) : Instruction :=
  { i with shift := some s }

def Instruction.with_rs2 (i : Instruction) (r : Nat) : Instruction :=
  { i with rs2 := some r }

/-- `arch::RV_ISA`, the full mnemonic catalogue, entry for entry. -/
def RV_ISA : List (String × Instruction) :=
  [
   ("lui", Instruction.new .Lui .UType .RV32I),
   ("auipc", Instruction.new .AuiPC .UType .RV32I),
   ("jal", Instruction.new .Jal .UJType .RV32I),
   ("jalr", Instruction.new .Jalr .IType .RV32I |>.with_funct3 0b000),
   ("beq", Instruction.new .Branch .SBType .RV32I |>.with_funct3 0b000),
   ("bne", Instruction.new .Branch .SBType .RV32I |>.with_funct3 0b001),
   ("blt", Instruction.new .Branch .SBType .RV32I |>.with_funct3 0b100),
   ("bge", Instruction.new .Branch .SBType .RV32I |>.with_funct3 0b101),
   ("bltu", Instruction.new .Branch .SBType .RV32I |>.with_funct3 0b110),
   ("bgeu", Instruction.new .Branch .SBType .RV32I |>.with_funct3 0b111),
   ("lb", Instruction.new .Load .IType .RV32I |>.with_funct3 0b000),
   ("lh", Instruction.new .Load .IType .RV32I |>.with_funct3 0b001),
   ("lw", Instruction.new .Load .IType .RV32I |>.with_funct3 0b010),
   ("lbu", Instruction.new .Load .IType .RV32I |>.with_funct3 0b100),
   ("lhu", Instruction.new .Load .IType .RV32I |>.with_funct3 0b101),
   ("sb", Instruction.new .Store .SType .RV32I |>.with_funct3 0b000),
   ("sh", Instruction.new .Store .SType .RV32I |>.with_funct3 0b001),
   ("sw", Instruction.new .Store .SType .RV32I |>.with_funct3 0b010),
   ("addi", Instruction.new .OpImm .IType .RV32I |>.with_funct3 0b000),
   ("slti", Instruction.new .OpImm .IType .RV32I |>.with_funct3 0b010),
   ("sltiu", Instruction.new .OpImm .IType .RV32I |>.with_funct3 0b011),
   ("xori", Instruction.new .OpImm .IType .RV32I |>.with_funct3 0b100),
   ("ori", Instruction.new .OpImm .IType .RV32I |>.with_funct3 0b110),
   ("andi", Instruction.new .OpImm .IType .RV32I |>.with_funct3 0b111),
   ("slli", Instruction.new .OpImm .IType .RV32I |>.with_funct3 0b001 |>.with_shift ShiftType.SLL),
   ("srli", Instruction.new .OpImm .IType .RV32I |>.with_funct3 0b101 |>.with_shift ShiftType.SRL),
   ("srai", Instruction.new .OpImm .IType .RV32I |>.with_funct3 0b101 |>.with_shift ShiftType.SRA),
   ("add", Instruction.new .Op .RType .RV32I |>.with_funct3 0b000 |>.with_funct7 0b0000000),
   ("sub", Instruction.new .Op .RType .RV32I |>.with_funct3 0b000 |>.with_funct7 0b0100000),
   ("sll", Instruction.new .Op .RType .RV32I |>.with_funct3 0b001 |>.with_funct7 0b0000000),
   ("slt", Instruction.new .Op .RType .RV32I |>.with_funct3 0b010 |>.with_funct7 0b0000000),
   ("sltu", Instruction.new .Op .RType .RV32I |>.with_funct3 0b011 |>.with_funct7 0b0000000),
   ("xor", Instruction.new .Op .RType .RV32I |>.with_funct3 0b100 |>.with_funct7 0b0000000),
   ("srl", Instruction.new .Op .RType .RV32I |>.with_funct3 0b101 |>.with_funct7 0b0000000),
   ("sra", Instruction.new .Op .RType .RV32I |>.with_funct3 0b101 |>.with_funct7 0b0100000),
   ("or", Instruction.new .Op .RType .RV32I |>.with_funct3 0b110 |>.with_funct7 0b0000000),
   ("and", Instruction.new .Op .RType .RV32I |>.with_funct3 0b111 |>.with_funct7 0b0000000),
   ("fence", Instruction.new .MiscMem .IType .RV32I |>.with_funct3 0b000),
   ("ecall", Instruction.new .System .IType .RV32I |>.with_funct3 0b000 |>.with_funct12 0b000000000000),
   ("ebreak", Instruction.new .System .IType .RV32I |>.with_funct3 0b000 |>.with_funct12 0b000000000001),
   ("addiw", Instruction.new .OpImm32 .IType .RV64I |>.with_funct3 0b000),
   ("slliw", Instruction.new .OpImm32 .IType .RV64I |>.with_funct3 0b001 |>.with_shift ShiftType.SLLW),
   ("srliw", Instruction.new .OpImm32 .IType .RV64I |>.with_funct3 0b101 |>.with_shift ShiftType.SRLW),
   ("sraiw", Instruction.new .OpImm32 .IType .RV64I |>.with_funct3 0b101 |>.with_shift ShiftType.SRAW),
   ("addw", Instruction.new .Op32 .RType .RV64I |>.with_funct3 0b000 |>.with_funct7 0b0000000),
   ("subw", Instruction.new .Op32 .RType .RV64I |>.with_funct3 0b000 |>.with_funct7 0b0100000),
   ("sllw", Instruction.new .Op32 .RType .RV64I |>.with_funct3 0b001 |>.with_funct7 0b0000000),
   ("srlw", Instruction.new .Op32 .RType .RV64I |>.with_funct3 0b101 |>.with_funct7 0b0000000),
   ("sraw", Instruction.new .Op32 .RType .RV64I |>.with_funct3 0b101 |>.with_funct7 0b0100000),
   ("ld", Instruction.new .Load .IType .RV64I |>.with_funct3 0b011),
   ("lwu", Instruction.new .Load .IType .RV64I |>.with_funct3 0b110),
   ("sd", Instruction.new .Store .SType .RV64I |>.with_funct3 0b011),
   ("addid", Instruction.new .OpImm64 .IType .RV128I |>.with_funct3 0b000),
   ("sllid", Instruction.new .OpImm64 .IType .RV128I |>.with_funct3 0b001 |>.with_shift ShiftType.SLLD),
   ("srlid", Instruction.new .OpImm64 .IType .RV128I |>.with_funct3 0b101 |>.with_shift ShiftType.SRLD),
   ("sraid", Instruction.new .OpImm64 .IType .RV128I |>.with_funct3 0b101 |>.with_shift ShiftType.SRAD),
   ("addd", Instruction.new .Op64 .RType .RV128I |>.with_funct3 0b000 |>.with_funct7 0b0000000),
   ("subd", Instruction.new .Op64 .RType .RV128I |>.with_funct3 0b000 |>.with_funct7 0b0100000),
   ("slld", Instruction.new .Op64 .RType .RV128I |>.with_funct3 0b001 |>.with_funct7 0b0000000),
   ("srld", Instruction.new .Op64 .RType .RV128I |>.with_funct3 0b101 |>.with_funct7 0b0000000),
   ("srad", Instruction.new .Op64 .RType .RV128I |>.with_funct3 0b101 |>.with_funct7 0b0100000),
   ("lq", Instruction.new .MiscMem .IType .RV128I |>.with_funct3 0b010),
   ("ldu", Instruction.new .Load .IType .RV128I |>.with_funct3 0b111),
   ("sq", Instruction.new .Store .SType .RV128I |>.with_funct3 0b100),
   ("fence.i", Instruction.new .MiscMem .SType .ZiFencei |>.with_funct3 0b001),
   ("csrrw", Instruction.new .System .IType .Zicsr |>.with_funct3 0b001),
   ("csrrs", Instruction.new .System .IType .Zicsr |>.with_funct3 0b010),
   ("csrrc", Instruction.new .System .IType .Zicsr |>.with_funct3 0b011),
   ("csrrwi", Instruction.new .System .IType .Zicsr |>.with_funct3 0b101),
   ("csrrsi", Instruction.new .System .IType .Zicsr |>.with_funct3 0b110),
   ("csrrci", Instruction.new .System .IType .Zicsr |>.with_funct3 0b111),
   ("mul", Instruction.new .Op .RType .RV32M |>.with_funct3 0b000 |>.with_funct7 0b0000001),
   ("mulh", Instruction.new .Op .RType .RV32M |>.with_funct3 0b001 |>.with_funct7 0b0000001),
   ("mulhsu", Instruction.new .Op .RType .RV32M |>.with_funct3 0b010 |>.with_funct7 0b0000001),
   ("mulhu", Instruction.new .Op .RType .RV32M |>.with_funct3 0b011 |>.with_funct7 0b0000001),
   ("div", Instruction.new .Op .RType .RV32M |>.with_funct3 0b100 |>.with_funct7 0b0000001),
   ("divu", Instruction.new .Op .RType .RV32M |>.with_funct3 0b101 |>.with_funct7 0b0000001),
   ("rem", Instruction.new .Op .RType .RV32M |>.with_funct3 0b110 |>.with_funct7 0b0000001),
   ("remu", Instruction.new .Op .RType .RV32M |>.with_funct3 0b111 |>.with_funct7 0b0000001),
   ("mulw", Instruction.new .Op32 .RType .RV64M |>.with_funct3 0b000 |>.with_funct7 0b0000001),
   ("divw", Instruction.new .Op32 .RType .RV64M |>.with_funct3 0b100 |>.with_funct7 0b0000001),
   ("divuw", Instruction.new .Op32 .RType .RV64M |>.with_funct3 0b101 |>.with_funct7 0b0000001),
   ("remw", Instruction.new .Op32 .RType .RV64M |>.with_funct3 0b110 |>.with_funct7 0b0000001),
   ("remuw", Instruction.new .Op32 .RType .RV64M |>.with_funct3 0b111 |>.with_funct7 0b0000001),
   ("muld", Instruction.new .Op64 .RType .RV128M |>.with_funct3 0b000 |>.with_funct7 0b0000001),
   ("divd", Instruction.new .Op64 .RType .RV128M |>.with_funct3 0b100 |>.with_funct7 0b0000001),
   ("divud", Instruction.new .Op64 .RType .RV128M |>.with_funct3 0b101 |>.with_funct7 0b0000001),
   ("remd", Instruction.new .Op64 .RType .RV128M |>.with_funct3 0b110 |>.with_funct7 0b0000001),
   ("remud", Instruction.new .Op64 .RType .RV128M |>.with_funct3 0b111 |>.with_funct7 0b0000001),
   ("lr.w", Instruction.new .Amo .RType .RV32A |>.with_funct3 0b010 |>.with_funct5 0b00010),
   ("sc.w", Instruction.new .Amo .RType .RV32A |>.with_funct3 0b010 |>.with_funct5 0b00011),
   ("amoswap.w", Instruction.new .Amo .RType .RV32A |>.with_funct3 0b010 |>.with_funct5 0b00001),
   ("amoadd.w", Instruction.new .Amo .RType .RV32A |>.with_funct3 0b010 |>.with_funct5 0b00000),
   ("amoxor.w", Instruction.new .Amo .RType .RV32A |>.with_funct3 0b010 |>.with_funct5 0b00100),
   ("amoand.w", Instruction.new .Amo .RType .RV32A |>.with_funct3 0b010 |>.with_funct5 0b01100),
   ("amoor.w", Instruction.new .Amo .RType .RV32A |>.with_funct3 0b010 |>.with_funct5 0b01000),
   ("amomin.w", Instruction.new .Amo .RType .RV32A |>.with_funct3 0b010 |>.with_funct5 0b10000),
   ("amomax.w", Instruction.new .Amo .RType .RV32A |>.with_funct3 0b010 |>.with_funct5 0b10100),
   ("amominu.w", Instruction.new .Amo .RType .RV32A |>.with_funct3 0b010 |>.with_funct5 0b11000),
   ("amomaxu.w", Instruction.new .Amo .RType .RV32A |>.with_funct3 0b010 |>.with_funct5 0b11100),
   ("lr.d", Instruction.new .Amo .RType .RV64A |>.with_funct3 0b011 |>.with_funct5 0b00010),
   ("sc.d", Instruction.new .Amo .RType .RV64A |>.with_funct3 0b011 |>.with_funct5 0b00011),
   ("amoswap.d", Instruction.new .Amo .RType .RV64A |>.with_funct3 0b011 |>.with_funct5 0b00001),
   ("amoadd.d", Instruction.new .Amo .RType .RV64A |>.with_funct3 0b011 |>.with_funct5 0b00000),
   ("amoxor.d", Instruction.new .Amo .RType .RV64A |>.with_funct3 0b011 |>.with_funct5 0b00100),
   ("amoand.d", Instruction.new .Amo .RType .RV64A |>.with_funct3 0b011 |>.with_funct5 0b01100),
   ("amoor.d", Instruction.new .Amo .RType .RV64A |>.with_funct3 0b011 |>.with_funct5 0b01000),
   ("amomin.d", Instruction.new .Amo .RType .RV64A |>.with_funct3 0b011 |>.with_funct5 0b10000),
   ("amomax.d", Instruction.new .Amo .RType .RV64A |>.with_funct3 0b011 |>.with_funct5 0b10100),
   ("amominu.d", Instruction.new .Amo .RType .RV64A |>.with_funct3 0b011 |>.with_funct5 0b11000),
   ("amomaxu.d", Instruction.new .Amo .RType .RV64A |>.with_funct3 0b011 |>.with_funct5 0b11100),
   ("lr.q", Instruction.new .Amo .RType .RV128A |>.with_funct3 0b100 |>.with_funct5 0b00010),
   ("sc.q", Instruction.new .Amo .RType .RV128A |>.with_funct3 0b100 |>.with_funct5 0b00011),
   ("amoswap.q", Instruction.new .Amo .RType .RV128A |>.with_funct3 0b100 |>.with_funct5 0b00001),
   ("amoadd.q", Instruction.new .Amo .RType .RV128A |>.with_funct3 0b100 |>.with_funct5 0b00000),
   ("amoxor.q", Instruction.new .Amo .RType .RV128A |>.with_funct3 0b100 |>.with_funct5 0b00100),
   ("amoand.q", Instruction.new .Amo .RType .RV128A |>.with_funct3 0b100 |>.with_funct5 0b01100),
   ("amoor.q", Instruction.new .Amo .RType .RV128A |>.with_funct3 0b100 |>.with_funct5 0b01000),
   ("amomin.q", Instruction.new .Amo .RType .RV128A |>.with_funct3 0b100 |>.with_funct5 0b10000),
   ("amomax.q", Instruction.new .Amo .RType .RV128A |>.with_funct3 0b100 |>.with_funct5 0b10100),
   ("amominu.q", Instruction.new .Amo .RType .RV128A |>.with_funct3 0b100 |>.with_funct5 0b11000),
   ("amomaxu.q", Instruction.new .Amo .RType .RV128A |>.with_funct3 0b100 |>.with_funct5 0b11100),
   ("flw", Instruction.new .LoadFp .IType .RV32F |>.with_funct3 0b010),
   ("fsw", Instruction.new .StoreFp .SType .RV32F |>.with_funct3 0b010),
   ("fmadd.s", Instruction.new .MAdd .R4Type .RV32F |>.with_float_format FloatFormat.Single),
   ("fmsub.s", Instruction.new .MSub .R4Type .RV32F |>.with_float_format FloatFormat.Single),
   ("fnmadd.s", Instruction.new .NmAdd .R4Type .RV32F |>.with_float_format FloatFormat.Single),
   ("fnmsub.s", Instruction.new .NmSub .R4Type .RV32F |>.with_float_format FloatFormat.Single),
   ("fadd.s", Instruction.new .OpFp .RType .RV32F |>.with_funct5 0b00000 |>.with_float_format FloatFormat.Single),
   ("fsub.s", Instruction.new .OpFp .RType .RV32F |>.with_funct5 0b00001 |>.with_float_format FloatFormat.Single),
   ("fmul.s", Instruction.new .OpFp .RType .RV32F |>.with_funct5 0b00010 |>.with_float_format FloatFormat.Single),
   ("fdiv.s", Instruction.new .OpFp .RType .RV32F |>.with_funct5 0b00011 |>.with_float_format FloatFormat.Single),
   ("fsqrt.s", Instruction.new .OpFp .RType .RV32F |>.with_funct5 0b01011 |>.with_rs2 0b00000 |>.with_float_format FloatFormat.Single),
   ("fsgnj.s", Instruction.new .OpFp .RType .RV32F |>.with_funct5 0b00100 |>.with_funct3 0b000 |>.with_float_format FloatFormat.Single),
   ("fsgnjn.s", Instruction.new .OpFp .RType .RV32F |>.with_funct5 0b00100 |>.with_funct3 0b001 |>.with_float_format FloatFormat.Single),
   ("fsgnjx.s", Instruction.new .OpFp .RType .RV32F |>.with_funct5 0b00100 |>.with_funct3 0b010 |>.with_float_format FloatFormat.Single),
   ("fmin.s", Instruction.new .OpFp .RType .RV32F |>.with_funct5 0b00101 |>.with_funct3 0b000 |>.with_float_format FloatFormat.Single),
   ("fmax.s", Instruction.new .OpFp .RType .RV32F |>.with_funct5 0b00101 |>.with_funct3 0b001 |>.with_float_format FloatFormat.Single),
   ("feq.s", Instruction.new .OpFp .RType .RV32F |>.with_funct5 0b10100 |>.with_funct3 0b010 |>.with_float_format FloatFormat.Single),
   ("flt.s", Instruction.new .OpFp .RType .RV32F |>.with_funct5 0b10100 |>.with_funct3 0b001 |>.with_float_format FloatFormat.Single),
   ("fle.s", Instruction.new .OpFp .RType .RV32F |>.with_funct5 0b10100 |>.with_funct3 0b000 |>.with_float_format FloatFormat.Single),
   ("fcvt.w.s", Instruction.new .OpFp .RType .RV32F |>.with_funct5 0b11000 |>.with_rs2 0b00000 |>.with_float_format FloatFormat.Single),
   ("fcvt.wu.s", Instruction.new .OpFp .RType .RV32F |>.with_funct5 0b11000 |>.with_rs2 0b00001 |>.with_float_format FloatFormat.Single),
   ("fcvt.s.w", Instruction.new .OpFp .RType .RV32F |>.with_funct5 0b11010 |>.with_rs2 0b00000 |>.with_float_format FloatFormat.Single),
   ("fcvt.s.wu", Instruction.new .OpFp .RType .RV32F |>.with_funct5 0b11010 |>.with_rs2 0b00001 |>.with_float_format FloatFormat.Single),
   ("fclass.s", Instruction.new .OpFp .RType .RV32F |>.with_funct5 0b11100 |>.with_rs2 0b00000 |>.with_funct3 0b001 |>.with_float_format FloatFormat.Single),
   ("fmv.x.w", Instruction.new .OpFp .RType .RV32F |>.with_funct5 0b11100 |>.with_rs2 0b00000 |>.with_funct3 0b000 |>.with_float_format FloatFormat.Single),
   ("fmv.w.x", Instruction.new .OpFp .RType .RV32F |>.with_funct5 0b11110 |>.with_rs2 0b00000 |>.with_funct3 0b000 |>.with_float_format FloatFormat.Single),
   ("fcvt.l.s", Instruction.new .OpFp .RType .RV64F |>.with_funct5 0b11000 |>.with_rs2 0b00010 |>.with_float_format FloatFormat.Single),
   ("fcvt.lu.s", Instruction.new .OpFp .RType .RV64F |>.with_funct5 0b11000 |>.with_rs2 0b00011 |>.with_float_format FloatFormat.Single),
   ("fcvt.s.l", Instruction.new .OpFp .RType .RV64F |>.with_funct5 0b11010 |>.with_rs2 0b00010 |>.with_float_format FloatFormat.Single),
   ("fcvt.s.lu", Instruction.new .OpFp .RType .RV64F |>.with_funct5 0b11010 |>.with_rs2 0b00011 |>.with_float_format FloatFormat.Single),
   ("fcvt.t.s", Instruction.new .OpFp .RType .RV128F |>.with_funct5 0b11000 |>.with_rs2 0b00100 |>.with_float_format FloatFormat.Single),
   ("fcvt.tu.s", Instruction.new .OpFp .RType .RV128F |>.with_funct5 0b11000 |>.with_rs2 0b00101 |>.with_float_format FloatFormat.Single),
   ("fcvt.s.t", Instruction.new .OpFp .RType .RV128F |>.with_funct5 0b11010 |>.with_rs2 0b00100 |>.with_float_format FloatFormat.Single),
   ("fcvt.s.tu", Instruction.new .OpFp .RType .RV128F |>.with_funct5 0b11010 |>.with_rs2 0b00101 |>.with_float_format FloatFormat.Single),
   ("fld", Instruction.new .LoadFp .IType .RV32D |>.with_funct3 0b011),
   ("fsd", Instruction.new .StoreFp .SType .RV32D |>.with_funct3 0b011),
   ("fmadd.d", Instruction.new .MAdd .R4Type .RV32D |>.with_float_format FloatFormat.Double),
   ("fmsub.d", Instruction.new .MSub .R4Type .RV32D |>.with_float_format FloatFormat.Double),
   ("fnmadd.d", Instruction.new .NmAdd .R4Type .RV32D |>.with_float_format FloatFormat.Double),
   ("fnmsub.d", Instruction.new .NmSub .R4Type .RV32D |>.with_float_format FloatFormat.Double),
   ("fadd.d", Instruction.new .OpFp .RType .RV32D |>.with_funct5 0b00000 |>.with_float_format FloatFormat.Double),
   ("fsub.d", Instruction.new .OpFp .RType .RV32D |>.with_funct5 0b00001 |>.with_float_format FloatFormat.Double),
   ("fmul.d", Instruction.new .OpFp .RType .RV32D |>.with_funct5 0b00010 |>.with_float_format FloatFormat.Double),
   ("fdiv.d", Instruction.new .OpFp .RType .RV32D |>.with_funct5 0b00011 |>.with_float_format FloatFormat.Double),
   ("fsqrt.d", Instruction.new .OpFp .RType .RV32D |>.with_funct5 0b01011 |>.with_rs2 0b00000 |>.with_float_format FloatFormat.Double),
   ("fsgnj.d", Instruction.new .OpFp .RType .RV32D |>.with_funct5 0b00100 |>.with_funct3 0b000 |>.with_float_format FloatFormat.Double),
   ("fsgnjn.d", Instruction.new .OpFp .RType .RV32D |>.with_funct5 0b00100 |>.with_funct3 0b001 |>.with_float_format FloatFormat.Double),
   ("fsgnjx.d", Instruction.new .OpFp .RType .RV32D |>.with_funct5 0b00100 |>.with_funct3 0b010 |>.with_float_format FloatFormat.Double),
   ("fmin.d", Instruction.new .OpFp .RType .RV32D |>.with_funct5 0b00101 |>.with_funct3 0b000 |>.with_float_format FloatFormat.Double),
   ("fmax.d", Instruction.new .OpFp .RType .RV32D |>.with_funct5 0b00101 |>.with_funct3 0b001 |>.with_float_format FloatFormat.Double),
   ("feq.d", Instruction.new .OpFp .RType .RV32D |>.with_funct5 0b10100 |>.with_funct3 0b010 |>.with_float_format FloatFormat.Double),
   ("flt.d", Instruction.new .OpFp .RType .RV32D |>.with_funct5 0b10100 |>.with_funct3 0b001 |>.with_float_format FloatFormat.Double),
   ("fle.d", Instruction.new .OpFp .RType .RV32D |>.with_funct5 0b10100 |>.with_funct3 0b000 |>.with_float_format FloatFormat.Double),
   ("fcvt.w.d", Instruction.new .OpFp .RType .RV32D |>.with_funct5 0b11000 |>.with_rs2 0b00000 |>.with_float_format FloatFormat.Double),
   ("fcvt.wu.d", Instruction.new .OpFp .RType .RV32D |>.with_funct5 0b11000 |>.with_rs2 0b00001 |>.with_float_format FloatFormat.Double),
   ("fcvt.d.w", Instruction.new .OpFp .RType .RV32D |>.with_funct5 0b11010 |>.with_rs2 0b00000 |>.with_float_format FloatFormat.Double),
   ("fcvt.d.wu", Instruction.new .OpFp .RType .RV32D |>.with_funct5 0b11010 |>.with_rs2 0b00001 |>.with_float_format FloatFormat.Double),
   ("fcvt.s.d", Instruction.new .OpFp .RType .RV32D |>.with_funct5 0b01000 |>.with_rs2 0b00000 |>.with_float_format FloatFormat.Single),
   ("fcvt.d.s", Instruction.new .OpFp .RType .RV32D |>.with_funct5 0b01000 |>.with_rs2 0b00000 |>.with_float_format FloatFormat.Double),
   ("fclass.d", Instruction.new .OpFp .RType .RV32D |>.with_funct5 0b11100 |>.with_rs2 0b00000 |>.with_funct3 0b001 |>.with_float_format FloatFormat.Double),
   ("fmv.x.d", Instruction.new .OpFp .RType .RV64D |>.with_funct5 0b11100 |>.with_rs2 0b00000 |>.with_funct3 0b000 |>.with_float_format FloatFormat.Double),
   ("fmv.d.x", Instruction.new .OpFp .RType .RV64D |>.with_funct5 0b11110 |>.with_rs2 0b00000 |>.with_funct3 0b000 |>.with_float_format FloatFormat.Double),
   ("fcvt.l.d", Instruction.new .OpFp .RType .RV64D |>.with_funct5 0b11000 |>.with_rs2 0b00010 |>.with_float_format FloatFormat.Double),
   ("fcvt.lu.d", Instruction.new .OpFp .RType .RV64D |>.with_funct5 0b11000 |>.with_rs2 0b00011 |>.with_float_format FloatFormat.Double),
   ("fcvt.d.l", Instruction.new .OpFp .RType .RV64D |>.with_funct5 0b11010 |>.with_rs2 0b00010 |>.with_float_format FloatFormat.Double),
   ("fcvt.d.lu", Instruction.new .OpFp .RType .RV64D |>.with_funct5 0b11010 |>.with_rs2 0b00011 |>.with_float_format FloatFormat.Double),
   ("fcvt.t.d", Instruction.new .OpFp .RType .RV128D |>.with_funct5 0b11000 |>.with_rs2 0b00100 |>.with_float_format FloatFormat.Double),
   ("fcvt.tu.d", Instruction.new .OpFp .RType .RV128D |>.with_funct5 0b11000 |>.with_rs2 0b00101 |>.with_float_format FloatFormat.Double),
   ("fcvt.d.t", Instruction.new .OpFp .RType .RV128D |>.with_funct5 0b11010 |>.with_rs2 0b00100 |>.with_float_format FloatFormat.Double),
   ("fcvt.d.tu", Instruction.new .OpFp .RType .RV128D |>.with_funct5 0b11010 |>.with_rs2 0b00101 |>.with_float_format FloatFormat.Double),
   ("flq", Instruction.new .LoadFp .IType .RV32Q |>.with_funct3 0b100),
   ("fsq", Instruction.new .StoreFp .SType .RV32Q |>.with_funct3 0b100),
   ("fmadd.q", Instruction.new .MAdd .R4Type .RV32Q |>.with_float_format FloatFormat.Quad),
   ("fmsub.q", Instruction.new .MSub .R4Type .RV32Q |>.with_float_format FloatFormat.Quad),
   ("fnmadd.q", Instruction.new .NmAdd .R4Type .RV32Q |>.with_float_format FloatFormat.Quad),
   ("fnmsub.q", Instruction.new .NmSub .R4Type .RV32Q |>.with_float_format FloatFormat.Quad),
   ("fadd.q", Instruction.new .OpFp .RType .RV32Q |>.with_funct5 0b00000 |>.with_float_format FloatFormat.Quad),
   ("fsub.q", Instruction.new .OpFp .RType .RV32Q |>.with_funct5 0b00001 |>.with_float_format FloatFormat.Quad),
   ("fmul.q", Instruction.new .OpFp .RType .RV32Q |>.with_funct5 0b00010 |>.with_float_format FloatFormat.Quad),
   ("fdiv.q", Instruction.new .OpFp .RType .RV32Q |>.with_funct5 0b00011 |>.with_float_format FloatFormat.Quad),
   ("fsqrt.q", Instruction.new .OpFp .RType .RV32Q |>.with_funct5 0b01011 |>.with_rs2 0b00000 |>.with_float_format FloatFormat.Quad),
   ("fsgnj.q", Instruction.new .OpFp .RType .RV32Q |>.with_funct5 0b00100 |>.with_funct3 0b000 |>.with_float_format FloatFormat.Quad),
   ("fsgnjn.q", Instruction.new .OpFp .RType .RV32Q |>.with_funct5 0b00100 |>.with_funct3 0b001 |>.with_float_format FloatFormat.Quad),
   ("fsgnjx.q", Instruction.new .OpFp .RType .RV32Q |>.with_funct5 0b00100 |>.with_funct3 0b010 |>.with_float_format FloatFormat.Quad),
   ("fmin.q", Instruction.new .OpFp .RType .RV32Q |>.with_funct5 0b00101 |>.with_funct3 0b000 |>.with_float_format FloatFormat.Quad),
   ("fmax.q", Instruction.new .OpFp .RType .RV32Q |>.with_funct5 0b00101 |>.with_funct3 0b001 |>.with_float_format FloatFormat.Quad),
   ("feq.q", Instruction.new .OpFp .RType .RV32Q |>.with_funct5 0b10100 |>.with_funct3 0b010 |>.with_float_format FloatFormat.Quad),
   ("flt.q", Instruction.new .OpFp .RType .RV32Q |>.with_funct5 0b10100 |>.with_funct3 0b001 |>.with_float_format FloatFormat.Quad),
   ("fle.q", Instruction.new .OpFp .RType .RV32Q |>.with_funct5 0b10100 |>.with_funct3 0b000 |>.with_float_format FloatFormat.Quad),
   ("fcvt.w.q", Instruction.new .OpFp .RType .RV32Q |>.with_funct5 0b11000 |>.with_rs2 0b00000 |>.with_float_format FloatFormat.Quad),
   ("fcvt.wu.q", Instruction.new .OpFp .RType .RV32Q |>.with_funct5 0b11000 |>.with_rs2 0b00001 |>.with_float_format FloatFormat.Quad),
   ("fcvt.q.w", Instruction.new .OpFp .RType .RV32Q |>.with_funct5 0b11010 |>.with_rs2 0b00000 |>.with_float_format FloatFormat.Quad),
   ("fcvt.q.wu", Instruction.new .OpFp .RType .RV32Q |>.with_funct5 0b11010 |>.with_rs2 0b00001 |>.with_float_format FloatFormat.Quad),
   ("fcvt.s.q", Instruction.new .OpFp .RType .RV32Q |>.with_funct5 0b01000 |>.with_rs2 0b00000 |>.with_float_format FloatFormat.Single),
   ("fcvt.q.s", Instruction.new .OpFp .RType .RV32Q |>.with_funct5 0b01000 |>.with_rs2 0b00000 |>.with_float_format FloatFormat.Quad),
   ("fcvt.d.q", Instruction.new .OpFp .RType .RV32Q |>.with_funct5 0b01000 |>.with_rs2 0b00000 |>.with_float_format FloatFormat.Double),
   ("fcvt.q.d", Instruction.new .OpFp .RType .RV32Q |>.with_funct5 0b01000 |>.with_rs2 0b00000 |>.with_float_format FloatFormat.Quad),
   ("fclass.q", Instruction.new .OpFp .RType .RV32Q |>.with_funct5 0b11100 |>.with_rs2 0b00000 |>.with_funct3 0b001 |>.with_float_format FloatFormat.Quad),
   ("fcvt.l.q", Instruction.new .OpFp .RType .RV64Q |>.with_funct5 0b11000 |>.with_rs2 0b00010 |>.with_float_format FloatFormat.Quad),
   ("fcvt.lu.q", Instruction.new .OpFp .RType .RV64Q |>.with_funct5 0b11000 |>.with_rs2 0b00011 |>.with_float_format FloatFormat.Quad),
   ("fcvt.q.l", Instruction.new .OpFp .RType .RV64Q |>.with_funct5 0b11010 |>.with_rs2 0b00010 |>.with_float_format FloatFormat.Quad),
   ("fcvt.q.lu", Instruction.new .OpFp .RType .RV64Q |>.with_funct5 0b11010 |>.with_rs2 0b00011 |>.with_float_format FloatFormat.Quad),
   ("fmv.x.q", Instruction.new .OpFp .RType .RV128Q |>.with_funct5 0b11100 |>.with_rs2 0b00000 |>.with_funct3 0b000 |>.with_float_format FloatFormat.Quad),
   ("fmv.q.x", Instruction.new .OpFp .RType .RV128Q |>.with_funct5 0b11110 |>.with_rs2 0b00000 |>.with_funct3 0b000 |>.with_float_format FloatFormat.Quad),
   ("fcvt.t.q", Instruction.new .OpFp .RType .RV128Q |>.with_funct5 0b11000 |>.with_rs2 0b00100 |>.with_float_format FloatFormat.Quad),
   ("fcvt.tu.q", Instruction.new .OpFp .RType .RV128Q |>.with_funct5 0b11000 |>.with_rs2 0b00101 |>.with_float_format FloatFormat.Quad),
   ("fcvt.q.t", Instruction.new .OpFp .RType .RV128Q |>.with_funct5 0b11010 |>.with_rs2 0b00100 |>.with_float_format FloatFormat.Quad),
   ("fcvt.q.tu", Instruction.new .OpFp .RType .RV128Q |>.with_funct5 0b11010 |>.with_rs2 0b00101 |>.with_float_format FloatFormat.Quad)]

/-! ### Encoders (`codec/enc.rs`)

Machine words are `Nat` with wrapping made explicit: `sl` is the `u32`
left shift (high bits discarded), `toU32` the `as u32` cast
(sign-extending for negative `i32` values). -/

inductive EncoderErr where
  | Token (msg : String)
  | Mnemonic (msg : String)
  | Format (msg : String)
  | Operands (msg : String)
  | FloatRounding (msg : String)
deriving DecidableEq, Repr

/-- `u32` left shift: `(a << k)` discarding bits above bit 31. -/
def sl (a k : Nat) : Nat := (a <<< k) % 2 ^ 32

/-- `i32 as u32`. -/
def toU32 (i : Int) : Nat := (i % (2 : Int) ^ 32).toNat

/-- Modelled from the spec: `Encoder::get_register` is called by
`encode_branch`, `encode_jal` and `encode_system` but its definition is
absent from the sources; per the operand-validation rules (§4.3) it
extracts the `(bank, index)` pair of a bare register operand. -/
def encGetRegister : Operand → Option (Char × Nat)
  | .RValue (.Register b i) => some (b, i)
  | _ => none

/-- Modelled from the spec: `Encoder::get_immediate` is absent from the
sources; it extracts the value of a bare immediate operand. -/
def encGetImmediate : Operand → Option Int
  | .RValue (.Immediate v) => some v
  | _ => none

/-- `Encoder::encode_op`: R-type.  `operands[i]` panics when absent. -/
def encode_op (instruction : Instruction) (operands : List Operand) :
    PRes EncoderErr Nat :=
  (unwrapO operands[0]?).bind fun o0 =>
  (unwrapO operands[1]?).bind fun o1 =>
  (unwrapO operands[2]?).bind fun o2 =>
  match tryIntoRValue o0, tryIntoRValue o1, tryIntoRValue o2 with
  | some (.Register _ rd), some (.Register _ rs1), some (.Register _ rs2) =>
      (unwrapO instruction.funct7).bind fun funct7 =>
      (unwrapO instruction.funct3).bind fun funct3 =>
      .ok (sl funct7 25 ||| sl rs2 20 ||| sl rs1 15 ||| sl funct3 12 |||
           sl rd 7 ||| instruction.opcode.toNat)
  | _, _, _ => .err (.Operands "Invalid operands.")

/-- `Encoder::encode_fp` (rounding mode fixed at 0). -/
def encode_fp (instruction : Instruction) (operands : List Operand) :
    PRes EncoderErr Nat :=
  (unwrapO operands[0]?).bind fun o0 =>
  (unwrapO operands[1]?).bind fun o1 =>
  (unwrapO operands[2]?).bind fun o2 =>
  match tryIntoRValue o0, tryIntoRValue o1, tryIntoRValue o2 with
  | some (.Register _ rd), some (.Register _ rs1), some (.Register _ rs2) =>
      (unwrapO instruction.funct5).bind fun funct5 =>
      let float_rd := funct5 &&& 0b10000 ≠ 0
      let float_rs1 := if funct5 &&& 0b1000 ≠ 0 then funct5 &&& 0b1000 ≠ 0
                       else ¬float_rd
      let rd := if float_rd then rd else rd &&& 0b11111
      let rs1 := if float_rs1 then rs1 else rs1 &&& 0b11111
      let rs2 := match instruction.rs2 with
                 | some rs2_val => rs2_val
                 | none => rs2 &&& 0b11111
      .ok (sl funct5 25 ||| sl rs2 20 ||| sl rs1 15 ||| sl 0 12 |||
           sl rd 7 ||| instruction.opcode.toNat)
  | _, _, _ => .err (.Operands "Invalid operands.")

/-- `Encoder::encode_amo` (`aq = rl = 0`). -/
def encode_amo (instruction : Instruction) (operands : List Operand) :
    PRes EncoderErr Nat :=
  (unwrapO operands[0]?).bind fun o0 =>
  (unwrapO operands[1]?).bind fun o1 =>
  (unwrapO operands[2]?).bind fun o2 =>
  match tryIntoRValue o0, tryIntoRValue o1, tryIntoRValue o2 with
  | some (.Register _ rd), some (.Register _ rs1), some (.Register _ rs2) =>
      (unwrapO instruction.funct5).bind fun funct5 =>
      (unwrapO instruction.funct3).bind fun funct3 =>
      .ok (sl funct5 27 ||| sl 0 26 ||| sl 0 25 ||| sl rs2 20 ||| sl rs1 15 |||
           sl funct3 12 ||| sl rd 7 ||| instruction.opcode.toNat)
  | _, _, _ => .err (.Operands "Invalid operands.")

/-- `Encoder::encode_jalr`: register destination plus `Address` operand. -/
def encode_jalr (instruction : Instruction) (operands : List Operand) :
    PRes EncoderErr Nat :=
  (unwrapO operands[0]?).bind fun o0 =>
  (unwrapO operands[1]?).bind fun o1 =>
  match tryIntoRValue o0, o1 with
  | some (.Register _ rd), .Address (.Register _ rs1) (.Immediate offset) =>
      (unwrapO instruction.funct3).bind fun funct3 =>
      let imm := toU32 offset &&& 0xFFF
      .ok (sl imm 20 ||| sl rs1 15 ||| sl funct3 12 ||| sl rd 7 |||
           instruction.opcode.toNat)
  | _, _ => .err (.Operands "Invalid operands.")

/-- `Encoder::encode_load`: identical shape to `encode_jalr`. -/
def encode_load (instruction : Instruction) (operands : List Operand) :
    PRes EncoderErr Nat :=
  (unwrapO operands[0]?).bind fun o0 =>
  (unwrapO operands[1]?).bind fun o1 =>
  match tryIntoRValue o0, o1 with
  | some (.Register _ rd), .Address (.Register _ rs1) (.Immediate offset) =>
      (unwrapO instruction.funct3).bind fun funct3 =>
      let imm := toU32 offset &&& 0xFFF
      .ok (sl imm 20 ||| sl rs1 15 ||| sl funct3 12 ||| sl rd 7 |||
           instruction.opcode.toNat)
  | _, _ => .err (.Operands "Invalid operands.")

/-- The shamt-width selection inside `Encoder::encode_op_imm`:
`OpImm32 → 5`, `OpImm64 → 6`, every other opcode (including the base
`OpImm`) → 7. -/
def shamtWidth : Opcode → Nat
  | .OpImm32 => 5
  | .OpImm64 => 6
  | _ => 7

/-- `Encoder::encode_op_imm`: I-type with the shift sub-encoding.  For a
shift instruction the immediate is `((0 << 4) | shift_type) << 6` or-ed
with the masked shamt; out-of-range shamts raise `Operands` naming the
value. -/
def encode_op_imm (instruction : Instruction) (operands : List Operand) :
    PRes EncoderErr Nat :=
  (unwrapO operands[0]?).bind fun o0 =>
  (unwrapO operands[1]?).bind fun o1 =>
  (unwrapO operands[2]?).bind fun o2 =>
  match tryIntoRValue o0, tryIntoRValue o1, tryIntoRValue o2 with
  | some (.Register _ rd), some (.Register _ rs1), some (.Immediate immediate) =>
      (unwrapO instruction.funct3).bind fun funct3 =>
      match instruction.shift with
      | some shift_type =>
          let w := shamtWidth instruction.opcode
          if immediate < 0 ∨ ((2 : Int) ^ w) ≤ immediate then
            .err (.Operands
              ("Invalid shamt field (out of range): \"" ++ toString immediate ++ "\""))
          else
            let imm_11_7 := shift_type.toNat
            let imm_6_0 := toU32 immediate &&& (2 ^ w - 1)
            let imm := (imm_11_7 <<< 6) ||| imm_6_0
            .ok (sl imm 20 ||| sl rs1 15 ||| sl funct3 12 ||| sl rd 7 |||
                 instruction.opcode.toNat)
      | none =>
          let imm := toU32 immediate &&& 0xFFF
          .ok (sl imm 20 ||| sl rs1 15 ||| sl funct3 12 ||| sl rd 7 |||
               instruction.opcode.toNat)
  | _, _, _ => .err (.Operands "Invalid operands.")

/-- `Encoder::encode_misc_mem`: `lq` takes an address operand, `fence`
packs `(pred << 4) | succ` — silently keeping zeros when the `fence`
operands do not match. -/
def encode_misc_mem (mnemonic : String) (instruction : Instruction)
    (operands : List Operand) : PRes EncoderErr (Nat) :=
  (if mnemonic = "lq" then
    (unwrapO operands[0]?).bind fun o0 =>
    (unwrapO operands[1]?).bind fun o1 =>
    match tryIntoRValue o0, o1 with
    | some (.Register _ rd_val), .Address (.Register _ rs1_val) (.Immediate offset) =>
        .ok (toU32 offset &&& 0xFFF, rs1_val, rd_val)
    | _, _ => .err (.Operands "Invalid operands.")
  else if mnemonic = "fence" then
    (unwrapO operands[0]?).bind fun o0 =>
    (unwrapO operands[1]?).bind fun o1 =>
    match tryIntoRValue o0, tryIntoRValue o1 with
    | some (.Immediate pred), some (.Immediate succ) =>
        .ok (sl (toU32 pred) 4 ||| toU32 succ, 0, 0)
    | _, _ => .ok (0, 0, 0)
  else (.ok (0, 0, 0) : PRes EncoderErr (Nat × Nat × Nat))).bind fun irr =>
  (unwrapO instruction.funct3).bind fun funct3 =>
  .ok (sl irr.1 20 ||| sl irr.2.1 15 ||| sl funct3 12 ||| sl irr.2.2 7 |||
       instruction.opcode.toNat)

/-- `Encoder::encode_system`.  The first statement is
`instruction.funct12.unwrap()`, which panics for every CSR mnemonic (none
of them carries a `funct12`); the `Zicsr` branch that follows (whose
scrutinee mixes `Ok`/`Some` and is ill-typed in the source) is therefore
unreachable and is embedded following its evident control flow: bit 3 of
`funct3` selects register versus immediate extraction for `operands[2]`,
with `unwrap` panicking on the wrong shape, and a failed outer pattern
keeps the defaults `rd = rs1 = 0`, `imm = funct12`. -/
def encode_system (instruction : Instruction) (operands : List Operand) :
    PRes EncoderErr Nat :=
  (unwrapO instruction.funct12).bind fun funct12 =>
  ((if instruction.isa = ISA.Zicsr then
    (unwrapO operands[0]?).bind fun o0 =>
    (unwrapO operands[1]?).bind fun o1 =>
    (unwrapO instruction.funct3).bind fun f3 =>
    (unwrapO operands[2]?).bind fun o2 =>
    ((if f3 &&& 0b1000 = 0 then
        (unwrapO (encGetRegister o2)).bind fun rc => PRes.ok rc.2
      else
        (unwrapO (encGetImmediate o2)).bind fun v => PRes.ok (toU32 v)) :
        PRes EncoderErr Nat).bind fun src =>
    match tryIntoRValue o0, encGetImmediate o1 with
    | some (.Register _ dest), some csr => .ok (toU32 csr, src, dest)
    | _, _ => .ok (funct12, 0, 0)
  else .ok (funct12, 0, 0)) : PRes EncoderErr (Nat × Nat × Nat)).bind fun irr =>
  (unwrapO instruction.funct3).bind fun funct3 =>
  .ok (sl irr.1 20 ||| sl irr.2.1 15 ||| sl funct3 12 ||| sl irr.2.2 7 |||
       instruction.opcode.toNat)

/-- `Encoder::encode_store`: S-type with the split immediate. -/
def encode_store (instruction : Instruction) (operands : List Operand) :
    PRes EncoderErr Nat :=
  (unwrapO operands[0]?).bind fun o0 =>
  (unwrapO operands[1]?).bind fun o1 =>
  match tryIntoRValue o0, o1 with
  | some (.Register _ rs2), .Address (.Register _ rs1) (.Immediate offset) =>
      (unwrapO instruction.funct3).bind fun funct3 =>
      let imm := toU32 offset &&& 0xFFF
      let imm_11_5 := (imm >>> 5) &&& 0x7F
      let imm_4_0 := imm &&& 0x1F
      .ok (sl imm_11_5 25 ||| sl rs2 20 ||| sl rs1 15 ||| sl funct3 12 |||
           sl imm_4_0 7 ||| instruction.opcode.toNat)
  | _, _ => .err (.Operands "Invalid operands.")

/-- `Encoder::encode_branch`: SB-type as written in the source, with
`imm_4_1 = imm & 0x1F` placed at bit 7 and `imm_11` or-ed into bit 7. -/
def encode_branch (instruction : Instruction) (operands : List Operand) :
    PRes EncoderErr Nat :=
  (unwrapO operands[0]?).bind fun o0 =>
  (unwrapO operands[1]?).bind fun o1 =>
  (unwrapO operands[2]?).bind fun o2 =>
  match encGetRegister o0, encGetRegister o1, encGetImmediate o2 with
  | some rc1, some rc2, some imm =>
      (unwrapO instruction.funct3).bind fun funct3 =>
      let imm_val := toU32 imm
      let imm_12 := (imm_val >>> 12) &&& 0x1
      let imm_11 := (imm_val >>> 11) &&& 0x1
      let imm_10_5 := (imm_val >>> 5) &&& 0x3F
      let imm_4_1 := imm_val &&& 0x1F
      .ok (sl imm_12 31 ||| sl imm_10_5 25 ||| sl rc2.2 20 ||| sl rc1.2 15 |||
           sl funct3 12 ||| sl imm_4_1 7 ||| sl imm_11 7 |||
           instruction.opcode.toNat)
  | _, _, _ => .err (.Operands "Invalid operands.")

/-- `Encoder::encode_u_type`: U-type, low 20 bits of the immediate shifted
to the top. -/
def encode_u_type (instruction : Instruction) (operands : List Operand) :
    PRes EncoderErr Nat :=
  (unwrapO operands[0]?).bind fun o0 =>
  (unwrapO operands[1]?).bind fun o1 =>
  match tryIntoRValue o0, tryIntoRValue o1 with
  | some (.Register _ rd), some (.Immediate imm) =>
      let imm_val := sl (toU32 imm &&& 0xFFFFF) 12
      .ok (imm_val ||| sl rd 7 ||| instruction.opcode.toNat)
  | _, _ => .err (.Operands "Invalid operands.")

/-- `Encoder::encode_jal`: UJ-type as written in the source, with
`imm_19_12` and `imm_11` both at bit 20 and `imm_10_1` at bit 1. -/
def encode_jal (instruction : Instruction) (operands : List Operand) :
    PRes EncoderErr Nat :=
  (unwrapO operands[0]?).bind fun o0 =>
  (unwrapO operands[1]?).bind fun o1 =>
  match encGetRegister o0, encGetImmediate o1 with
  | some rc, some imm =>
      let imm_val := toU32 imm
      let imm_20 := (imm_val >>> 20) &&& 0x1
      let imm_19_12 := (imm_val >>> 12) &&& 0xFF
      let imm_11 := (imm_val >>> 11) &&& 0x1
      let imm_10_1 := (imm_val >>> 1) &&& 0x3FF
      .ok (sl imm_20 31 ||| sl imm_19_12 20 ||| sl imm_11 20 |||
           sl imm_10_1 1 ||| sl rc.2 7 ||| instruction.opcode.toNat)
  | _, _ => .err (.Operands "Invalid operands.")

/-- `Encoder::new`: ISA lookup followed by per-opcode dispatch. -/
def Encoder_new (mnemonic : String) (operands : List Operand) :
    PRes EncoderErr Nat :=
  match RV_ISA.lookup mnemonic with
  | none =>
      .err (.Mnemonic ("Unsupported instruction mnemonic: \"" ++ mnemonic ++ "\""))
  | some instruction =>
      match instruction.opcode with
      | .Op | .Op32 | .Op64 => encode_op instruction operands
      | .OpFp => encode_fp instruction operands
      | .Amo => encode_amo instruction operands
      | .Jalr => encode_jalr instruction operands
      | .Load | .LoadFp => encode_load instruction operands
      | .OpImm | .OpImm32 | .OpImm64 => encode_op_imm instruction operands
      | .MiscMem => encode_misc_mem mnemonic instruction operands
      | .System => encode_system instruction operands
      | .Store | .StoreFp => encode_store instruction operands
      | .Branch => encode_branch instruction operands
      | .Lui | .AuiPC => encode_u_type instruction operands
      | .Jal => encode_jal instruction operands
      | .MAdd | .MSub | .NmAdd | .NmSub =>
          .err (.Format "Unsupported FMA/R4 opcode instruction.")

/-! ### Object assembly and expansion (`asm.rs`) -/

inductive AssemblerErr where
  | Encoder (e : EncoderErr)
  | Lexer (e : LexerErr)
  | Syntax (msg : String)
  | Other (msg : String)
deriving DecidableEq, Repr

/-- `asm::Object`: byte buffer, deferred relocations, symbol table. -/
structure Object where
  binary : List Nat
  relocations : List (Emittable × Nat)
  symbols : List (String × Nat)
deriving DecidableEq, Repr

def Object.new : Object := ⟨[], [], []⟩

/-- Modelled from the spec: the `encode!` macro used by `process_binary`
is absent from the sources; per §4.4 ("append four little-endian bytes of
the encoded word") it yields the four little-endian bytes of the word
produced by `Encoder::new`. -/
def encodeBytes (mnemonic : String) (operands : List Operand) :
    PRes EncoderErr (List Nat) :=
  (Encoder_new mnemonic operands).bind fun w =>
  .ok [w % 256, (w >>> 8) % 256, (w >>> 16) % 256, (w >>> 24) % 256]

def process_binary_go : List Token → Object → PRes AssemblerErr Object
  | [], o => .ok o
  | .Emittable (.Instruction mnemonic ops) :: rest, o =>
      (match encodeBytes mnemonic ops with
       | .ok bytes => process_binary_go rest { o with binary := o.binary ++ bytes }
       | .err e => .err (.Encoder e)
       | .panic => .panic)
  | _ :: rest, o => process_binary_go rest o

/-- `Assembler::process_binary`: instruction emittables are encoded and
their bytes appended; every other token — labels included — falls through
the wildcard arm, so `symbols` and `relocations` are never written. -/
def process_binary (tokens : List Token) : PRes AssemblerErr Object :=
  process_binary_go tokens Object.new

/-- Lexing of a pseudo-instruction body (each line is an instruction
line, as in the `lex!` bodies of `asm.rs`, already trimmed the way
`Lexer::new` trims them). -/
def lexBody : List String → Except LexerErr (List Token)
  | [] => .ok []
  | l :: rest =>
      match get_instruction l with
      | .ok e =>
          (match lexBody rest with
           | .ok ts => .ok (Token.Emittable e :: ts)
           | .error err => .error err)
      | .error err => .error err

/-- The raw pseudo-instruction declarations of `asm.rs`: mnemonic, formal
parameters, body source lines. -/
def pseudoDecls : List (String × List String × List String) :=
  [("nop", ([], ["addi zero, zero, 0"])),
   ("mv", (["rd", "rs"], ["addi rd, rs, 0"])),
   ("not", (["rd", "rs1"], ["xori rd, rs1, -1"])),
   ("neg", (["rd", "rs1"], ["sub rd, x0, rs1"])),
   ("negw", (["rd", "rs1"], ["subw rd, x0, rs1"])),
   ("sext.w", (["rd", "rs1"], ["addiw rd, rs1, 0"])),
   ("seqz", (["rd", "rs1"], ["sltiu rd, rs1, 1"])),
   ("snez", (["rd", "rs1"], ["sltu rd, x0, rs1"])),
   ("sltz", (["rd", "rs1"], ["slt rd, rs1, x0"])),
   ("sgtz", (["rd", "rs1"], ["slt rd, x0, rs1"])),
   ("fmv.s", (["frd", "frs1"], ["fsgnj.s frd, frs1, frs1"])),
   ("fabs.s", (["frd", "frs1"], ["fsgnjx.s frd, frs1, frs1"])),
   ("fneg.s", (["frd", "frs1"], ["fsgnjn.s frd, frs1, frs1"])),
   ("fmv.d", (["frd", "frs1"], ["fsgnj.d frd, frs1, frs1"])),
   ("fabs.d", (["frd", "frs1"], ["fsgnjx.d frd, frs1, frs1"])),
   ("fneg.d", (["frd", "frs1"], ["fsgnjn.d frd, frs1, frs1"])),
   ("beqz", (["rs1", "offset"], ["beq rs1, x0, offset"])),
   ("bnez", (["rs1", "offset"], ["bne rs1, x0, offset"])),
   ("blez", (["rs1", "offset"], ["bge x0, rs1, offset"])),
   ("bgez", (["rs1", "offset"], ["bge rs1, x0, offset"])),
   ("bltz", (["rs1", "offset"], ["blt rs1, x0, offset"])),
   ("bgtz", (["rs1", "offset"], ["blt x0, rs1, offset"])),
   ("bgt", (["rs", "rt", "offset"], ["blt rt, rs, offset"])),
   ("ble", (["rs", "rt", "offset"], ["bge rt, rs, offset"])),
   ("bgtu", (["rs", "rt", "offset"], ["bltu rt, rs, offset"])),
   ("bleu", (["rt", "rs", "offset"], ["bltu rt, rs, offset"])),
   ("j", (["offset"], ["jal x0, offset"])),
   ("jr", (["offset"], ["jal x1, offset"])),
   ("ret", ([], ["jalr x0, x1, 0"])),
   ("li.16", (["rd", "imm"], ["addi rd, x0, imm"])),
   ("li.32", (["rd", "imm"],
     ["lui rd, %hi(imm)",
      "addi rd, rd, %lo(imm)"])),
   ("li.64", (["rd", "imm"],
     ["lui rd, %highest(imm)",
      "addi rd, rd, %higher(imm)",
      "slli rd, rd, 32",
      "addi rd, rd, %hi(imm)",
      "addi rd, rd, %lo(imm)"])),
   ("la.16", (["rd", "symbol"],
     ["auipc rd, %pcrel_hi(symbol)",
      "addi rd, rd, %pcrel_lo(symbol)"])),
   ("la.32", (["rd", "symbol"],
     ["lui rd, %hi(symbol)",
      "addi rd, rd, %lo(symbol)"])),
   ("la.64", (["rd", "symbol"],
     ["lui rd, %highest(symbol)",
      "addi rd, rd, %higher(symbol)",
      "slli rd, rd, 32",
      "addi rd, rd, %hi(symbol)",
      "addi rd, rd, %lo(symbol)"]))]

/-- `asm::PSEUDO_INSTRUCTIONS`.  The lazy initializer builds each body
with `lex!(...).unwrap()`; a body whose lexing fails makes every access
to the table panic, recorded here as `none`. -/
def PSEUDO_INSTRUCTIONS : Option (List (String × List String × List Token)) :=
  pseudoDecls.mapM fun d =>
    match lexBody d.2.2 with
    | .ok ts => some (d.1, d.2.1, ts)
    | .error _ => none

/-- The width selection for `li`/`la` in `Assembler::process_expansions`. -/
def liWidth (imm : Int) : String :=
  if -32768 ≤ imm ∧ imm ≤ 32767 then "16"
  else if -2147483648 ≤ imm ∧ imm ≤ 2147483647 then "32"
  else "64"

/-- Positional substitution of one operand (`get_argument_fn` plus the
bare-identifier guard of `Assembler::expand_code`). -/
def substOperand (formals : List String) (arguments : List Operand)
    (o : Operand) : PRes AssemblerErr Operand :=
  match o with
  | .RValue (.Identifier identifier) =>
      (match formals.indexOf? identifier with
       | some i => unwrapO arguments[i]?
       | none => .err (.Syntax ("Argument \"" ++ identifier ++ "\" not found.")))
  | _ => .ok o

def substOperands (formals : List String) (arguments : List Operand) :
    List Operand → PRes AssemblerErr (List Operand)
  | [] => .ok []
  | o :: rest =>
      (substOperand formals arguments o).bind fun o' =>
      (substOperands formals arguments rest).bind fun os =>
      .ok (o' :: os)

def expand_code_go (formals : List String) (arguments : List Operand) :
    List Token → PRes AssemblerErr (List Token)
  | [] => .ok []
  | .Emittable (.Instruction m ops) :: rest =>
      (substOperands formals arguments ops).bind fun ops' =>
      (expand_code_go formals arguments rest).bind fun ts =>
      .ok (Token.Emittable (.Instruction m ops') :: ts)
  | t :: rest =>
      (expand_code_go formals arguments rest).bind fun ts => .ok (t :: ts)

/-- `Assembler::expand_code`: arity check, then positional substitution of
bare identifier operands inside the body's instructions. -/
def expand_code (arguments : List Operand) (formals : List String)
    (body : List Token) : PRes AssemblerErr (List Token) :=
  if arguments.length ≠ formals.length then
    .err (.Syntax ("Expected " ++ toString formals.length ++ " arguments, found " ++
                   toString arguments.length ++ "."))
  else expand_code_go formals arguments body

/-- Phase one of `Assembler::process_expansions`: for each instruction
token, rewrite a `li`/`la` mnemonic by the width of `arguments[1]`
(indexing panics when absent, a non-immediate is a `Syntax` error), then
consult `PSEUDO_INSTRUCTIONS` and the macro dictionary to collect the
indices to expand. -/
def pe_phase1 (macros : List (String × List String × List Token)) :
    List Token → Nat → PRes AssemblerErr (List Token × List Nat)
  | [], _ => .ok ([], [])
  | t :: rest, idx =>
      match t with
      | .Emittable (.Instruction mnemonic args) =>
          (if mnemonic = "li" ∨ mnemonic = "la" then
            (unwrapO args[1]?).bind fun a1 =>
            match a1 with
            | .RValue (.Immediate imm) =>
                (.ok (mnemonic ++ "." ++ liWidth imm) : PRes AssemblerErr String)
            | _ => .err (.Syntax "Expected immediate operand.")
          else (.ok mnemonic : PRes AssemblerErr String)).bind fun mn =>
          (unwrapO PSEUDO_INSTRUCTIONS).bind fun ptable =>
          let hit := (ptable.lookup mn).isSome || (macros.lookup mn).isSome
          (pe_phase1 macros rest (idx + 1)).bind fun pr =>
          .ok (Token.Emittable (.Instruction mn args) :: pr.1,
               if hit then idx :: pr.2 else pr.2)
      | _ =>
          (pe_phase1 macros rest (idx + 1)).bind fun pr =>
          .ok (t :: pr.1, pr.2)

/-- Phase two of `Assembler::process_expansions`: splice the expansion of
each collected index, highest index first. -/
def pe_phase2 (macros : List (String × List String × List Token)) :
    List Nat → List Token → PRes AssemblerErr (List Token)
  | [], tokens => .ok tokens
  | idx :: rest, tokens =>
      ((match tokens[idx]? with
        | some (.Emittable (.Instruction mnemonic arguments)) =>
            (unwrapO PSEUDO_INSTRUCTIONS).bind fun ptable =>
            (match ptable.lookup mnemonic with
             | some details =>
                 (expand_code arguments details.1 details.2).bind fun ex =>
                 .ok (tokens.take idx ++ ex ++ tokens.drop (idx + 1))
             | none =>
                 match macros.lookup mnemonic with
                 | some details =>
                     (expand_code arguments details.1 details.2).bind fun ex =>
                     .ok (tokens.take idx ++ ex ++ tokens.drop (idx + 1))
                 | none => .ok tokens)
        | some _ => .ok tokens
        | none => .panic) : PRes AssemblerErr (List Token)).bind fun tokens' =>
      pe_phase2 macros rest tokens'

/-- `Assembler::process_expansions`: phase one then phase two (indices in
reverse order, as the source sorts them descending). -/
def process_expansions (tokens : List Token)
    (macros : List (String × List String × List Token)) :
    PRes AssemblerErr (List Token) :=
  (pe_phase1 macros tokens 0).bind fun pr =>
  pe_phase2 macros pr.2.reverse pr.1

/-! ### The format table's SB and UJ layouts, for comparison -/

/-- Modelled from the spec: the SB (branch) word layout of the format
table — `imm[12] | imm[10:5] | rs2 | rs1 | funct3 | imm[4:1] | imm[11] |
opcode`, with `imm[4:1]` at bits 11..8 and `imm[11]` at bit 7. -/
def sbSpecWord (imm_val rs2 rs1 funct3 opcode : Nat) : Nat :=
  sl ((imm_val >>> 12) &&& 0x1) 31 ||| sl ((imm_val >>> 5) &&& 0x3F) 25 |||
  sl rs2 20 ||| sl rs1 15 ||| sl funct3 12 |||
  sl ((imm_val >>> 1) &&& 0xF) 8 ||| sl ((imm_val >>> 11) &&& 0x1) 7 ||| opcode

/-- Modelled from the spec: the UJ (jal) word layout of the format table —
`imm[20] | imm[10:1] | imm[11] | imm[19:12] | rd | opcode`, with `imm[20]`
at bit 31, `imm[10:1]` at bits 30..21, `imm[11]` at bit 20 and
`imm[19:12]` at bits 19..12. -/
def ujSpecWord (imm_val rd opcode : Nat) : Nat :=
  sl ((imm_val >>> 20) &&& 0x1) 31 ||| sl ((imm_val >>> 1) &&& 0x3FF) 21 |||
  sl ((imm_val >>> 11) &&& 0x1) 20 ||| sl ((imm_val >>> 12) &&& 0xFF) 12 |||
  sl rd 7 ||| opcode

/-! ### Shorthand for operands and tokens used in the theorems -/

/-- An integer-register operand. -/
def xr (i : Nat) : Operand := .RValue (.Register 'x' i)

/-- An immediate operand. -/
def imO (v : Int) : Operand := .RValue (.Immediate v)

/-- An identifier operand. -/
def idO (name : String) : Operand := .RValue (.Identifier name)

/-- An instruction token. -/
def instrTok (m : String) (ops : List Operand) : Token :=
  .Emittable (.Instruction m ops)

/-- The `Operands` message raised for an out-of-range shamt. -/
def shamtMsg (i : Int) : String :=
  "Invalid shamt field (out of range): \"" ++ toString i ++ "\""

/-- `m` encodes successfully on `x`-registers `rd`, `rs1` and shamt `i`. -/
def acceptsShamt (m : String) (rd rs1 : Nat) (i : Int) : Prop :=
  ∃ w, Encoder_new m [xr rd, xr rs1, imO i] = .ok w

/-- `m` rejects shamt `i` with the `Operands` error naming the value. -/
def rejectsShamt (m : String) (rd rs1 : Nat) (i : Int) : Prop :=
  Encoder_new m [xr rd, xr rs1, imO i] = .err (.Operands (shamtMsg i))

/-! ### Supporting lemmas -/

theorem Encoder_new_opimm_dispatch (m : String) (inst : Instruction) (ops : List Operand)
    (hm : RV_ISA.lookup m = some inst)
    (hop : inst.opcode = .OpImm ∨ inst.opcode = .OpImm32 ∨ inst.opcode = .OpImm64) :
    Encoder_new m ops = encode_op_imm inst ops := by
  simp only [Encoder_new, hm]
  rcases hop with h | h | h <;> simp only [h]

theorem encode_op_imm_shift_reject (inst : Instruction) (st : ShiftType) (f3 : Nat)
    (hst : inst.shift = some st) (hf3 : inst.funct3 = some f3)
    (b1 b2 : Char) (rd rs1 : Nat) (i : Int)
    (h : i < 0 ∨ ((2 : Int) ^ shamtWidth inst.opcode) ≤ i) :
    encode_op_imm inst [.RValue (.Register b1 rd), .RValue (.Register b2 rs1),
        .RValue (.Immediate i)] =
      .err (.Operands (shamtMsg i)) := by
  simp only [encode_op_imm, List.getElem?_cons_zero, List.getElem?_cons_succ,
    unwrapO, PRes.bind, tryIntoRValue, hst, hf3, shamtMsg]
  rw [if_pos h]

theorem encode_op_imm_shift_ok_eq (inst : Instruction) (st : ShiftType) (f3 : Nat)
    (hst : inst.shift = some st) (hf3 : inst.funct3 = some f3)
    (b1 b2 : Char) (rd rs1 : Nat) (i : Int)
    (h : ¬(i < 0 ∨ ((2 : Int) ^ shamtWidth inst.opcode) ≤ i)) :
    encode_op_imm inst [.RValue (.Register b1 rd), .RValue (.Register b2 rs1),
        .RValue (.Immediate i)] =
      .ok (sl ((ShiftType.toNat st <<< 6) |||
               (toU32 i &&& (2 ^ shamtWidth inst.opcode - 1))) 20 |||
           sl rs1 15 ||| sl f3 12 ||| sl rd 7 ||| Opcode.toNat inst.opcode) := by
  simp only [encode_op_imm, List.getElem?_cons_zero, List.getElem?_cons_succ,
    unwrapO, PRes.bind, tryIntoRValue, hst, hf3]
  rw [if_neg h]

/-- One shift mnemonic: accepted exactly on `[0, 2^w)` where `w` is the
width chosen by `shamtWidth` from the opcode, rejected with the
value-naming `Operands` error outside it. -/
theorem shamt_range_case (m : String) (inst : Instruction) (st : ShiftType) (f3 : Nat)
    (hm : RV_ISA.lookup m = some inst)
    (hop : inst.opcode = .OpImm ∨ inst.opcode = .OpImm32 ∨ inst.opcode = .OpImm64)
    (hst : inst.shift = some st) (hf3 : inst.funct3 = some f3)
    (rd rs1 : Nat) (i : Int) :
    ((0 ≤ i ∧ i < 2 ^ shamtWidth inst.opcode) → acceptsShamt m rd rs1 i) ∧
    ((i < 0 ∨ (2 : Int) ^ shamtWidth inst.opcode ≤ i) → rejectsShamt m rd rs1 i) := by
  constructor
  · intro h
    have hc : ¬(i < 0 ∨ ((2 : Int) ^ shamtWidth inst.opcode) ≤ i) := by
      push_neg
      exact ⟨h.1, h.2⟩
    have heq := encode_op_imm_shift_ok_eq inst st f3 hst hf3 'x' 'x' rd rs1 i hc
    have hdisp := Encoder_new_opimm_dispatch m inst [xr rd, xr rs1, imO i] hm hop
    exact ⟨_, hdisp.trans heq⟩
  · intro h
    unfold rejectsShamt
    rw [Encoder_new_opimm_dispatch m inst _ hm hop]
    exact encode_op_imm_shift_reject inst st f3 hst hf3 'x' 'x' rd rs1 i h

theorem get_register_core_bank (s : String) (b : Char) (i : Nat)
    (h : get_register_core s = .ok (.Register b i)) : b = 'x' ∨ b = 'f' := by
  unfold get_register_core at h
  split at h
  · rename_i c rest heq
    split at h
    · rename_i hc
      split at h
      · rename_i v hv
        simp only [Except.ok.injEq, RValue.Register.injEq] at h
        rw [← h.1]
        exact hc
      · exact absurd h (by simp)
    · exact absurd h (by simp)
  · exact absurd h (by simp)

/-! ### Claims -/

/-- C1: each golden pair of the round-trip table encodes to exactly the
listed 32-bit word, and `process_binary` appends that word to the object's
binary as four little-endian bytes: `addi x5, x6, 255 → 0x0ff30293`,
`mul x0, x1, x2 → 0x02208033`, `add x0, x0, x2 → 0x00200033`,
`sub x0, x0, x0 → 0x40000033`, `addi x0, x0, 0 → 0x00000013`. -/
theorem C1_golden_encodings :
    Encoder_new "addi" [xr 5, xr 6, imO 255] = .ok 0x0ff30293 ∧
    Encoder_new "mul" [xr 0, xr 1, xr 2] = .ok 0x02208033 ∧
    Encoder_new "add" [xr 0, xr 0, xr 2] = .ok 0x00200033 ∧
    Encoder_new "sub" [xr 0, xr 0, xr 0] = .ok 0x40000033 ∧
    Encoder_new "addi" [xr 0, xr 0, imO 0] = .ok 0x00000013 ∧
    process_binary [instrTok "addi" [xr 5, xr 6, imO 255]] =
      .ok ⟨[0x93, 0x02, 0xF3, 0x0F], [], []⟩ ∧
    process_binary [instrTok "mul" [xr 0, xr 1, xr 2]] =
      .ok ⟨[0x33, 0x80, 0x20, 0x02], [], []⟩ ∧
    process_binary [instrTok "add" [xr 0, xr 0, xr 2]] =
      .ok ⟨[0x33, 0x00, 0x20, 0x00], [], []⟩ ∧
    process_binary [instrTok "sub" [xr 0, xr 0, xr 0]] =
      .ok ⟨[0x33, 0x00, 0x00, 0x40], [], []⟩ ∧
    process_binary [instrTok "addi" [xr 0, xr 0, imO 0]] =
      .ok ⟨[0x13, 0x00, 0x00, 0x00], [], []⟩ := by
  decide

/-- C2: the encoder does NOT lay out the SB and UJ immediates as the
format table specifies.  `beq x0, x0, 1` encodes to `0xE3` (the source ORs
`imm & 0x1F` — bits 4:0, not 4:1 — into bits 11..7 together with
`imm[11]`), while the table layout gives `0x63`; `jal x0, 256` encodes to
`0x16F` (the source puts `imm[19:12]` at bit 20 and `imm[10:1]` at bit 1),
while the table layout gives `0x1000006F`. -/
theorem C2_branch_jal_layout :
    Encoder_new "beq" [xr 0, xr 0, imO 1] = .ok 0xE3 ∧
    sbSpecWord (toU32 1) 0 0 0 0b1100011 = 0x63 ∧
    (0xE3 : Nat) ≠ 0x63 ∧
    Encoder_new "jal" [xr 0, imO 256] = .ok 0x16F ∧
    ujSpecWord (toU32 256) 0 0b1101111 = 0x1000006F ∧
    (0x16F : Nat) ≠ 0x1000006F := by
  decide

/-- C3: labels are never recorded: assembling a stream with a label yields
an object whose `symbols` table is empty (no `name → offset` entry at the
label's byte offset), and a stream with two identically named labels is
accepted rather than rejected. -/
theorem C3_labels_never_recorded :
    process_binary [Token.Label "start", instrTok "addi" [xr 0, xr 0, imO 0]] =
      .ok ⟨[0x13, 0x00, 0x00, 0x00], [], []⟩ ∧
    process_binary [Token.Label "a", Token.Label "a"] = .ok ⟨[], [], []⟩ := by
  decide

/-- C4: `auipc t0, %hi(function_addr)` lexes to a `RelocationFn` second
operand, but assembly does not succeed: the U-type encoder requires a bare
immediate, so `process_binary` stops with `Operands` and no relocation is
recorded. -/
theorem C4_reloc_rejected :
    get_instruction "auipc t0, %hi(function_addr)" =
      .ok (.Instruction "auipc" [xr 5, .RelocationFn "hi" (.Identifier "function_addr")]) ∧
    process_binary [.Emittable (.Instruction "auipc"
        [xr 5, .RelocationFn "hi" (.Identifier "function_addr")])] =
      .err (.Encoder (.Operands "Invalid operands.")) := by
  decide

/-- C5 counterexample: `slli x1, x2, 32` is ACCEPTED (the base `OpImm`
opcode falls into the catch-all shamt width 7, encoding to `0x02011093`),
while the RV64I `slliw x1, x2, 32` is the one rejected with `Operands`. -/
theorem C5_counterexample :
    Encoder_new "slli" [xr 1, xr 2, imO 32] = .ok 0x02011093 ∧
    Encoder_new "slliw" [xr 1, xr 2, imO 32] = .err (.Operands (shamtMsg 32)) := by
  decide

/-- C5 (amended): the permitted shamt range is `[0, 2^w − 1]`, but the
width `w` is keyed by opcode as the source keys it: 5 for the `OpImm32`
opcodes (`slliw`/`srliw`/`sraiw`), 6 for the `OpImm64` opcodes
(`sllid`/`srlid`/`sraid`), and 7 for everything else — including the base
`OpImm` shifts `slli`/`srli`/`srai` — so `slli x1, x2, 32` is accepted
while `slliw x1, x2, 32` is rejected with an `Operands` error naming the
offending value. -/
theorem C5_shamt_ranges (i : Int) (rd rs1 : Nat) :
    ((0 ≤ i ∧ i < 2 ^ 5) → acceptsShamt "slliw" rd rs1 i ∧ acceptsShamt "srliw" rd rs1 i ∧
        acceptsShamt "sraiw" rd rs1 i) ∧
    ((i < 0 ∨ 2 ^ 5 ≤ i) → rejectsShamt "slliw" rd rs1 i ∧ rejectsShamt "srliw" rd rs1 i ∧
        rejectsShamt "sraiw" rd rs1 i) ∧
    ((0 ≤ i ∧ i < 2 ^ 6) → acceptsShamt "sllid" rd rs1 i ∧ acceptsShamt "srlid" rd rs1 i ∧
        acceptsShamt "sraid" rd rs1 i) ∧
    ((i < 0 ∨ 2 ^ 6 ≤ i) → rejectsShamt "sllid" rd rs1 i ∧ rejectsShamt "srlid" rd rs1 i ∧
        rejectsShamt "sraid" rd rs1 i) ∧
    ((0 ≤ i ∧ i < 2 ^ 7) → acceptsShamt "slli" rd rs1 i ∧ acceptsShamt "srli" rd rs1 i ∧
        acceptsShamt "srai" rd rs1 i) ∧
    ((i < 0 ∨ 2 ^ 7 ≤ i) → rejectsShamt "slli" rd rs1 i ∧ rejectsShamt "srli" rd rs1 i ∧
        rejectsShamt "srai" rd rs1 i) := by
  have h1 := shamt_range_case "slliw" _ _ _ rfl (Or.inr (Or.inl rfl)) rfl rfl rd rs1 i
  have h2 := shamt_range_case "srliw" _ _ _ rfl (Or.inr (Or.inl rfl)) rfl rfl rd rs1 i
  have h3 := shamt_range_case "sraiw" _ _ _ rfl (Or.inr (Or.inl rfl)) rfl rfl rd rs1 i
  have h4 := shamt_range_case "sllid" _ _ _ rfl (Or.inr (Or.inr rfl)) rfl rfl rd rs1 i
  have h5 := shamt_range_case "srlid" _ _ _ rfl (Or.inr (Or.inr rfl)) rfl rfl rd rs1 i
  have h6 := shamt_range_case "sraid" _ _ _ rfl (Or.inr (Or.inr rfl)) rfl rfl rd rs1 i
  have h7 := shamt_range_case "slli" _ _ _ rfl (Or.inl rfl) rfl rfl rd rs1 i
  have h8 := shamt_range_case "srli" _ _ _ rfl (Or.inl rfl) rfl rfl rd rs1 i
  have h9 := shamt_range_case "srai" _ _ _ rfl (Or.inl rfl) rfl rfl rd rs1 i
  exact ⟨fun h => ⟨h1.1 h, h2.1 h, h3.1 h⟩, fun h => ⟨h1.2 h, h2.2 h, h3.2 h⟩,
         fun h => ⟨h4.1 h, h5.1 h, h6.1 h⟩, fun h => ⟨h4.2 h, h5.2 h, h6.2 h⟩,
         fun h => ⟨h7.1 h, h8.1 h, h9.1 h⟩, fun h => ⟨h7.2 h, h8.2 h, h9.2 h⟩⟩

/-- C5 witness: `slli x1, x2, 32` accepted, `slliw x1, x2, 32` rejected. -/
theorem C5_shamt_ranges_witness :
    acceptsShamt "slli" 1 2 32 ∧ rejectsShamt "slliw" 1 2 32 :=
  ⟨((C5_shamt_ranges 32 1 2).2.2.2.2.1 (by decide)).1,
   ((C5_shamt_ranges 32 1 2).2.1 (by decide)).1⟩

/-- C6: no `li` expands at all.  The pseudo-instruction table's own
initializer lexes the `li.64` body, whose `%highest(imm)`/`%higher(imm)`
operands the relocation regex does not match, so building the table
panics (`None` here) and `li a0, 0x100` panics instead of expanding;
`0x1_0000_0000` does not even lex as an immediate (underscores fail
`SIGNED_REGEX`), so `li a0, 0x1_0000_0000` is a `Syntax` error, not the
five-instruction 64-bit sequence. -/
theorem C6_li_expansion_impossible :
    PSEUDO_INSTRUCTIONS = none ∧
    lexBody ["lui rd, %highest(imm)",
             "addi rd, rd, %higher(imm)",
             "slli rd, rd, 32",
             "addi rd, rd, %hi(imm)",
             "addi rd, rd, %lo(imm)"] =
      .error (.Syntax "Unexpected instruction operand: %highest(imm)") ∧
    process_expansions [instrTok "li" [xr 10, imO 0x100]] [] = .panic ∧
    get_instruction "li a0, 0x1_0000_0000" =
      .ok (.Instruction "li" [xr 10, idO "0x1_0000_0000"]) ∧
    process_expansions [instrTok "li" [xr 10, idO "0x1_0000_0000"]] [] =
      .err (.Syntax "Expected immediate operand.") := by
  decide

/-- C7 counterexample: the lexer accepts `x99` as a register
(`REGISTER_REGEX` allows `x\d+` with any digits) and produces
`Register('x', 99)` with index 99 > 31; the R-type encoder does not mask
register indices, so the encoded word of `add x99, x0, x0` leaks bits into
the funct3 field (bits 14..12 are `3`, not `add`'s funct3 `0`). -/
theorem C7_counterexample :
    regRegexMatch "x99".data = true ∧
    get_instruction "add x99, x0, x0" =
      .ok (.Instruction "add" [xr 99, xr 0, xr 0]) ∧
    ¬(99 : Nat) ≤ 31 ∧
    Encoder_new "add" [xr 99, xr 0, xr 0] = .ok 0x31B3 ∧
    ((0x31B3 : Nat) >>> 12) &&& 0x7 = 3 := by
  decide

/-- C7 (amended): every register value `Lexer::get_register` produces has
bank `'x'` or `'f'` — but the index is unconstrained, and the encoder does
not mask it (see the counterexample for `x99`). -/
theorem C7_register_bank (s : String) (b : Char) (i : Nat)
    (h : get_register s = .ok (.Register b i)) : b = 'x' ∨ b = 'f' := by
  unfold get_register at h
  cases hl : CONVENTIONAL_TO_ABI.lookup s <;> rw [hl] at h
  · exact get_register_core_bank _ _ _ h
  · exact get_register_core_bank _ _ _ h

/-- C7 witness: the bank invariant at `x5`. -/
theorem C7_register_bank_witness :
    ∃ b i, get_register "x5" = .ok (.Register b i) ∧ (b = 'x' ∨ b = 'f') :=
  ⟨'x', 5, by decide, C7_register_bank "x5" 'x' 5 (by decide)⟩

/-- C8: the ABI aliases `s2`…`s9` and `fp` are NOT lexed to registers:
`REGISTER_REGEX`'s alternative `s[0-1][0-1]?` misses them (and `fp`
matches no alternative), so they classify as identifiers even though
`CONVENTIONAL_TO_ABI` maps `s2 → x18` and `fp → x8`; `s11, s10, s1` do
work. -/
theorem C8_alias_lexing :
    get_instruction "add s2, s3, s4" =
      .ok (.Instruction "add" [idO "s2", idO "s3", idO "s4"]) ∧
    get_instruction "addi fp, fp, 0" =
      .ok (.Instruction "addi" [idO "fp", idO "fp", imO 0]) ∧
    regRegexMatch "s2".data = false ∧
    regRegexMatch "fp".data = false ∧
    CONVENTIONAL_TO_ABI.lookup "s2" = some "x18" ∧
    CONVENTIONAL_TO_ABI.lookup "fp" = some "x8" ∧
    get_instruction "add s11, s10, s1" =
      .ok (.Instruction "add" [xr 27, xr 26, xr 9]) := by
  decide

/-- C9: CSR instructions never encode as claimed: `encode_system` begins
with `instruction.funct12.unwrap()`, and no `Zicsr` table entry carries a
`funct12`, so both `csrrw` and `csrrwi` panic; moreover the immediate
forms are selected by `funct3 & 0b1000` (bit 3, always zero for the 3-bit
funct3) rather than bit 2, so the uimm5 path is unreachable. -/
theorem C9_csr_encoding_panics :
    Encoder_new "csrrw" [xr 1, imO 0x305, xr 2] = .panic ∧
    Encoder_new "csrrwi" [xr 1, imO 0x305, imO 5] = .panic ∧
    RV_ISA.lookup "csrrwi" =
      some (Instruction.new .System .IType .Zicsr |>.with_funct3 0b101) ∧
    (RV_ISA.lookup "csrrwi").all (fun inst => inst.funct12 = none) ∧
    ((0b101 : Nat) &&& 0b1000) = 0 := by
  decide

/-- C10: assembly is not total — handlers index operand vectors
unconditionally, so `add x1, x2` (two operands reaching the three-operand
R-type encoder) and `li a0` (one operand reaching the expander's
`arguments[1]`) both panic instead of returning an error value. -/
theorem C10_short_operand_panics :
    get_instruction "add x1, x2" = .ok (.Instruction "add" [xr 1, xr 2]) ∧
    Encoder_new "add" [xr 1, xr 2] = .panic ∧
    process_binary [instrTok "add" [xr 1, xr 2]] = .panic ∧
    get_instruction "li a0" = .ok (.Instruction "li" [xr 10]) ∧
    process_expansions [instrTok "li" [xr 10]] [] = .panic := by
  decide

end Aem
